import Mathlib

/-!
Verification development for the MicroReactor embedded reactive kernel.

The definitions below are a shallow embedding of the C sources under
`components/micro_reactor/src`:
  - `ur_core.c`   : entities, cascading rule lookup, middleware chain,
                    dispatcher and the state-transition protocol;
  - `ur_power.c`  : vote-based power lock set and allowed-mode derivation;
  - `ur_codec.c`  : framed binary codec with CRC-16;
  - `ur_bus.c`    : topic-indexed publish/subscribe fan-out;
  - `ur_acl.c`    : per-entity access-control rules and filter;
  - `ur_param.c`  : typed parameter store with change notification.

Machine integers are modelled as `Nat` with explicit truncation where the
C code truncates.  C function pointers (rule actions, state entry/exit
actions, middleware, ACL transforms) are modelled as numeric identifiers
interpreted by an explicit environment; every invocation the dispatcher
performs is recorded in an event list so that invocation order and
multiplicity are observable.  Fallible operations return an error code
mirroring `ur_err_t`.
-/

namespace MicroReactor

/-- Error codes, mirroring `ur_err_t` in `ur_types.h`. -/
inductive UrErr where
  | ok
  | invalid_arg
  | no_memory
  | queue_full
  | not_found
  | invalid_state
  | timeout
  | already_exists
  | disabled
deriving DecidableEq, Repr

/-- Compile-time constants from `ur_config.h` (default configuration). -/
def UR_CFG_MAX_ENTITIES : Nat := 16

def UR_CFG_INBOX_SIZE : Nat := 8

def UR_CFG_SIGNAL_PAYLOAD_SIZE : Nat := 4

/-- Reserved system signal ids from `ur_types.h`. -/
def SIG_NONE : Nat := 0x0000

def SIG_SYS_INIT : Nat := 0x0001

def SIG_SYS_ENTRY : Nat := 0x0002

def SIG_SYS_EXIT : Nat := 0x0003

/--
A signal (`ur_signal_t`).  The payload is the inline byte array
(`UR_CFG_SIGNAL_PAYLOAD_SIZE` bytes); the opaque external pointer field
is not modelled (no claim concerns it).
-/
structure Signal where
  id : Nat
  src_id : Nat
  payload : List Nat
  timestamp : Nat
deriving DecidableEq, Repr

/-- `ur_signal_create(id, src)`: zero payload, zero timestamp. -/
def ur_signal_create (id src : Nat) : Signal :=
  { id := id, src_id := src,
    payload := List.replicate UR_CFG_SIGNAL_PAYLOAD_SIZE 0, timestamp := 0 }

/-- A transition rule (`ur_rule_t`).  The action function pointer is a
numeric identifier; `none` models a NULL action. -/
structure Rule where
  signal_id : Nat
  next_state : Nat
  action : Option Nat
deriving DecidableEq, Repr

/-- A state descriptor (`ur_state_def_t`). -/
structure StateDef where
  id : Nat
  parent_id : Nat
  on_entry : Option Nat
  on_exit : Option Nat
  rules : List Rule
deriving DecidableEq, Repr

/-- A mixin (`ur_mixin_t`); the entity keeps its mixin array sorted by
priority, so the priority field is carried but ordering is the list order. -/
structure Mixin where
  rules : List Rule
  priority : Nat
deriving DecidableEq, Repr

/-- Middleware result codes (`ur_mw_result_t`). -/
inductive MwResult where
  | mwContinue
  | mwHandled
  | mwFiltered
  | mwTransform
deriving DecidableEq, Repr

/-- A middleware entry (`ur_middleware_t`); `fn` is a numeric function
identifier (always non-NULL in the model). -/
structure Middleware where
  fn : Nat
  priority : Nat
  enabled : Bool
deriving DecidableEq, Repr

/--
An entity control block (`ur_entity_t`).  The flag word is modelled as
separate booleans (`UR_FLAG_ACTIVE`, `UR_FLAG_SUSPENDED`,
`UR_FLAG_FLOW_RUNNING`); the inbox is the FIFO list of pending signals
(front = next to be dequeued).
-/
structure Entity where
  id : Nat
  current_state : Nat
  states : List StateDef
  mixins : List Mixin
  middleware : List Middleware
  flow_line : Nat
  flow_wait_sig : Nat
  flow_wait_until : Nat
  flow_running : Bool
  active : Bool
  suspended : Bool
  inbox : List Signal
deriving DecidableEq, Repr

/-- Environment interpreting rule/entry/exit action identifiers: an action
receives the entity and the signal and returns the next-state override
(0 = stay), exactly the contract of `ur_action_fn_t`. -/
def ActionEnv : Type := Nat → Entity → Signal → Nat

/-- Environment interpreting middleware function identifiers: a middleware
receives the entity and the signal and returns a result code together with
the (possibly mutated in place) signal. -/
def MwEnv : Type := Nat → Entity → Signal → MwResult × Signal

/-- Observable events: every action-function invocation the kernel performs,
recording the function identifier and the signal passed to it. -/
inductive Event where
  | invoke (fnId : Nat) (sig : Signal)
deriving DecidableEq, Repr

/-- Helper: the event list produced by invoking an optional action. -/
def optInvoke (a : Option Nat) (sig : Signal) : List Event :=
  match a with
  | some fnId => [Event.invoke fnId sig]
  | none => []

/-- `find_state` in `ur_core.c`: first state descriptor with the given id. -/
def find_state (ent : Entity) (state_id : Nat) : Option StateDef :=
  ent.states.find? (fun s => s.id == state_id)

/-- `find_rule_in_state`: first rule in table order matching the signal id. -/
def find_rule_in_state (st : StateDef) (signal_id : Nat) : Option Rule :=
  st.rules.find? (fun r => r.signal_id == signal_id)

/-- `find_rule_in_mixins`: mixins in (priority-sorted) array order, rules in
table order. -/
def find_rule_in_mixins (ent : Entity) (signal_id : Nat) : Option Rule :=
  ent.mixins.findSome? (fun m => m.rules.find? (fun r => r.signal_id == signal_id))

/--
The HSM bubble-up loop of `cascading_lookup` (step 3): walk the parent
chain upward from the current state descriptor searching each ancestor's
rule table.  The C loop runs while the descriptor exists and its parent id
is nonzero; the fuel argument (instantiated with the number of states)
bounds the walk and coincides with the C loop on acyclic parent chains,
where each ancestor is visited at most once.
-/
def hsm_walk (ent : Entity) (signal_id : Nat) : Option StateDef → Nat → Option Rule
  | _, 0 => none
  | none, _ => none
  | some st, fuel + 1 =>
    if st.parent_id = 0 then none
    else
      match find_state ent st.parent_id with
      | none => none
      | some p =>
        match find_rule_in_state p signal_id with
        | some r => some r
        | none => hsm_walk ent signal_id (some p) fuel

/-- `cascading_lookup` in `ur_core.c`: current-state rules, then mixins,
then HSM bubble-up along the parent chain. -/
def cascading_lookup (ent : Entity) (signal_id : Nat) : Option Rule :=
  let state := find_state ent ent.current_state
  match state with
  | some st =>
    match find_rule_in_state st signal_id with
    | some r => some r
    | none =>
      match find_rule_in_mixins ent signal_id with
      | some r => some r
      | none => hsm_walk ent signal_id state ent.states.length
  | none =>
    match find_rule_in_mixins ent signal_id with
    | some r => some r
    | none => hsm_walk ent signal_id state ent.states.length

/--
`ur_set_state` in `ur_core.c`: forced transition protocol.  If the target
state does not exist, fail with `not_found` and do nothing.  Otherwise, if
the current state is nonzero: run its on-exit action with a synthesized
EXIT signal and reset the flow coroutine state (line, awaited signal, wake
time, flow-running flag); then swap the current state id and run the new
state's on-entry action with a synthesized ENTRY signal.  The return
values of entry/exit actions are ignored by the C code, so only the
invocation events are recorded.
-/
def ur_set_state (ent : Entity) (state_id : Nat) :
    Entity × List Event × UrErr :=
  match find_state ent state_id with
  | none => (ent, [], UrErr.not_found)
  | some new_state =>
    let exit_evs : List Event :=
      if ent.current_state ≠ 0 then
        match find_state ent ent.current_state with
        | some old_state =>
            optInvoke old_state.on_exit (ur_signal_create SIG_SYS_EXIT ent.id)
        | none => []
      else []
    let ent1 : Entity :=
      if ent.current_state ≠ 0 then
        { ent with flow_line := 0, flow_wait_sig := SIG_NONE,
                   flow_wait_until := 0, flow_running := false }
      else ent
    let ent2 : Entity := { ent1 with current_state := state_id }
    let entry_evs : List Event :=
      optInvoke new_state.on_entry (ur_signal_create SIG_SYS_ENTRY ent.id)
    (ent2, exit_evs ++ entry_evs, UrErr.ok)

/-- `run_middleware_chain` in `ur_core.c`: enabled middleware in
(priority-sorted) array order; FILTERED and HANDLED stop the chain,
CONTINUE and TRANSFORM pass the (possibly mutated) signal onward. -/
def run_middleware_chain (env : MwEnv) (ent : Entity) :
    List Middleware → Signal → MwResult × Signal
  | [], sig => (MwResult.mwContinue, sig)
  | mw :: rest, sig =>
    if mw.enabled then
      let rs := env mw.fn ent sig
      if rs.1 = MwResult.mwFiltered ∨ rs.1 = MwResult.mwHandled then rs
      else run_middleware_chain env ent rest rs.2
    else run_middleware_chain env ent rest sig

/-- The rule-matching tail of `ur_dispatch` (after the middleware chain):
cascading lookup, action invocation with next-state override, and the
conditional transition. -/
def dispatch_rules (env : ActionEnv) (ent : Entity) (sig : Signal) :
    Entity × List Event × UrErr :=
  match cascading_lookup ent sig.id with
  | none => (ent, [], UrErr.ok)
  | some rule =>
    let step : Nat × List Event :=
      match rule.action with
      | some aid =>
        let action_result := env aid ent sig
        (if action_result ≠ 0 then action_result else rule.next_state,
         [Event.invoke aid sig])
      | none => (rule.next_state, [])
    let next_state := step.1
    if next_state ≠ 0 ∧ next_state ≠ ent.current_state then
      let r := ur_set_state ent next_state
      (r.1, step.2 ++ r.2.1, UrErr.ok)
    else (ent, step.2, UrErr.ok)

/-- The body of `ur_dispatch` after a signal has been dequeued: middleware
chain first; FILTERED and HANDLED terminate with `UR_OK`; otherwise the
rule-matching phase runs on the (possibly transformed) signal. -/
def dispatch_signal (env : ActionEnv) (menv : MwEnv) (ent : Entity)
    (sig : Signal) : Entity × List Event × UrErr :=
  let mw := run_middleware_chain menv ent ent.middleware sig
  if mw.1 = MwResult.mwFiltered then (ent, [], UrErr.ok)
  else if mw.1 = MwResult.mwHandled then (ent, [], UrErr.ok)
  else dispatch_rules env ent mw.2

/--
`ur_dispatch` in `ur_core.c`.  Fails with `invalid_state` when the entity
is inactive or suspended; dequeues one signal (empty inbox: `timeout`,
matching the C receive with no signal available); then runs the
middleware chain and the rule-matching phase.
-/
def ur_dispatch (env : ActionEnv) (menv : MwEnv) (ent : Entity) :
    Entity × List Event × UrErr :=
  if ¬ ent.active ∨ ent.suspended then (ent, [], UrErr.invalid_state)
  else
    match ent.inbox with
    | [] => (ent, [], UrErr.timeout)
    | sig :: rest => dispatch_signal env menv { ent with inbox := rest } sig

/- ============================================================= -/
/- Power manager (`ur_power.c`)                                   -/
/- ============================================================= -/

/-- Power modes (`ur_power_mode_t`): lower value = more power. -/
def UR_POWER_ACTIVE : Nat := 0

def UR_POWER_IDLE : Nat := 1

def UR_POWER_LIGHT_SLEEP : Nat := 2

def UR_POWER_DEEP_SLEEP : Nat := 3

def UR_POWER_MODE_COUNT : Nat := 4

/-- `MAX_LOCKS` in `ur_power.c`. -/
def MAX_LOCKS : Nat := UR_CFG_MAX_ENTITIES * UR_POWER_MODE_COUNT

/-- A reference-counted power lock (`lock_entry_t`). -/
structure LockEntry where
  entity_id : Nat
  mode : Nat
  count : Nat
deriving DecidableEq, Repr

/-- The power manager state: the dense prefix `locks[0..lock_count)` of the
lock array (order preserved, matching the shift-down removal). -/
structure PowerState where
  locks : List LockEntry
deriving DecidableEq, Repr

/-- `ur_power_init`: empty lock set. -/
def ur_power_init : PowerState := { locks := [] }

/-- `find_lock`: first lock entry for the given (entity, mode) pair. -/
def find_lock (st : PowerState) (entity_id mode : Nat) : Option LockEntry :=
  st.locks.find? (fun l => l.entity_id == entity_id && l.mode == mode)

/-- In-place increment of the first (entity, mode) lock entry. -/
def bump_lock (locks : List LockEntry) (entity_id mode : Nat) : List LockEntry :=
  match locks with
  | [] => []
  | l :: rest =>
    if l.entity_id == entity_id && l.mode == mode then
      { l with count := l.count + 1 } :: rest
    else l :: bump_lock rest entity_id mode

/-- `ur_power_lock`: increment an existing (entity, mode) lock, or append a
fresh entry with count 1 (subject to the `MAX_LOCKS` capacity). -/
def ur_power_lock (st : PowerState) (entity_id mode : Nat) :
    PowerState × UrErr :=
  if mode ≥ UR_POWER_MODE_COUNT then (st, UrErr.invalid_arg)
  else
    match find_lock st entity_id mode with
    | some _ => ({ locks := bump_lock st.locks entity_id mode }, UrErr.ok)
    | none =>
      if st.locks.length ≥ MAX_LOCKS then (st, UrErr.no_memory)
      else ({ locks := st.locks ++ [{ entity_id := entity_id, mode := mode, count := 1 }] },
            UrErr.ok)

/-- Decrement-or-remove for `ur_power_unlock`: the first (entity, mode)
entry is decremented; at zero it is removed (shift-down). -/
def drop_lock (locks : List LockEntry) (entity_id mode : Nat) : List LockEntry :=
  match locks with
  | [] => []
  | l :: rest =>
    if l.entity_id == entity_id && l.mode == mode then
      if l.count - 1 = 0 then rest else { l with count := l.count - 1 } :: rest
    else l :: drop_lock rest entity_id mode

/-- `ur_power_unlock`. -/
def ur_power_unlock (st : PowerState) (entity_id mode : Nat) :
    PowerState × UrErr :=
  if mode ≥ UR_POWER_MODE_COUNT then (st, UrErr.invalid_arg)
  else
    match find_lock st entity_id mode with
    | none => (st, UrErr.not_found)
    | some _ => ({ locks := drop_lock st.locks entity_id mode }, UrErr.ok)

/-- `ur_power_is_locked`: true iff some entry locks exactly this mode. -/
def ur_power_is_locked (st : PowerState) (mode : Nat) : Bool :=
  st.locks.any (fun l => l.mode == mode)

/-- The descending scan of `ur_power_get_allowed_mode`: from the given mode
down to `UR_POWER_IDLE`, returning the first mode that is not locked, and
`UR_POWER_ACTIVE` when every scanned mode is locked. -/
def allowed_mode_scan (st : PowerState) : Nat → Nat
  | 0 => UR_POWER_ACTIVE
  | m + 1 =>
    if ¬ ur_power_is_locked st (m + 1) then m + 1
    else allowed_mode_scan st m

/-- `ur_power_get_allowed_mode`: scan from `UR_POWER_DEEP_SLEEP` downward. -/
def ur_power_get_allowed_mode (st : PowerState) : Nat :=
  allowed_mode_scan st UR_POWER_DEEP_SLEEP

/- ============================================================= -/
/- Binary codec (`ur_codec.c`)                                    -/
/- ============================================================= -/

/-- Frame constants from `ur_codec.h`. -/
def UR_CODEC_SYNC_BYTE : Nat := 0x55

def UR_CODEC_HEADER_SIZE : Nat := 7

def UR_CODEC_CRC_SIZE : Nat := 2

/-- The literal 256-entry CRC-16 lookup table from `ur_codec.c`. -/
def crc16_table : List Nat := [
  0x0000, 0x1021, 0x2042, 0x3063, 0x4084, 0x50A5, 0x60C6, 0x70E7,
  0x8108, 0x9129, 0xA14A, 0xB16B, 0xC18C, 0xD1AD, 0xE1CE, 0xF1EF,
  0x1231, 0x0210, 0x3273, 0x2252, 0x52B5, 0x4294, 0x72F7, 0x62D6,
  0x9339, 0x8318, 0xB37B, 0xA35A, 0xD3BD, 0xC39C, 0xF3FF, 0xE3DE,
  0x2462, 0x3443, 0x0420, 0x1401, 0x64E6, 0x74C7, 0x44A4, 0x5485,
  0xA56A, 0xB54B, 0x8528, 0x9509, 0xE5EE, 0xF5CF, 0xC5AC, 0xD58D,
  0x3653, 0x2672, 0x1611, 0x0630, 0x76D7, 0x66F6, 0x5695, 0x46B4,
  0xB75B, 0xA77A, 0x9719, 0x8738, 0xF7DF, 0xE7FE, 0xD79D, 0xC7BC,
  0x48C4, 0x58E5, 0x6886, 0x78A7, 0x0840, 0x1861, 0x2802, 0x3823,
  0xC9CC, 0xD9ED, 0xE98E, 0xF9AF, 0x8948, 0x9969, 0xA90A, 0xB92B,
  0x5AF5, 0x4AD4, 0x7AB7, 0x6A96, 0x1A71, 0x0A50, 0x3A33, 0x2A12,
  0xDBFD, 0xCBDC, 0xFBBF, 0xEB9E, 0x9B79, 0x8B58, 0xBB3B, 0xAB1A,
  0x6CA6, 0x7C87, 0x4CE4, 0x5CC5, 0x2C22, 0x3C03, 0x0C60, 0x1C41,
  0xEDAE, 0xFD8F, 0xCDEC, 0xDDCD, 0xAD2A, 0xBD0B, 0x8D68, 0x9D49,
  0x7E97, 0x6EB6, 0x5ED5, 0x4EF4, 0x3E13, 0x2E32, 0x1E51, 0x0E70,
  0xFF9F, 0xEFBE, 0xDFDD, 0xCFFC, 0xBF1B, 0xAF3A, 0x9F59, 0x8F78,
  0x9188, 0x81A9, 0xB1CA, 0xA1EB, 0xD10C, 0xC12D, 0xF14E, 0xE16F,
  0x1080, 0x00A1, 0x30C2, 0x20E3, 0x5004, 0x4025, 0x7046, 0x6067,
  0x83B9, 0x9398, 0xA3FB, 0xB3DA, 0xC33D, 0xD31C, 0xE37F, 0xF35E,
  0x02B1, 0x1290, 0x22F3, 0x32D2, 0x4235, 0x5214, 0x6277, 0x7256,
  0xB5EA, 0xA5CB, 0x95A8, 0x8589, 0xF56E, 0xE54F, 0xD52C, 0xC50D,
  0x34E2, 0x24C3, 0x14A0, 0x0481, 0x7466, 0x6447, 0x5424, 0x4405,
  0xA7DB, 0xB7FA, 0x8799, 0x97B8, 0xE75F, 0xF77E, 0xC71D, 0xD73C,
  0x26D3, 0x36F2, 0x0691, 0x16B0, 0x6657, 0x7676, 0x4615, 0x5634,
  0xD94C, 0xC96D, 0xF90E, 0xE92F, 0x99C8, 0x89E9, 0xB98A, 0xA9AB,
  0x5844, 0x4865, 0x7806, 0x6827, 0x18C0, 0x08E1, 0x3882, 0x28A3,
  0xCB7D, 0xDB5C, 0xEB3F, 0xFB1E, 0x8BF9, 0x9BD8, 0xABBB, 0xBB9A,
  0x4A75, 0x5A54, 0x6A37, 0x7A16, 0x0AF1, 0x1AD0, 0x2AB3, 0x3A92,
  0xFD2E, 0xED0F, 0xDD6C, 0xCD4D, 0xBDAA, 0xAD8B, 0x9DE8, 0x8DC9,
  0x7C26, 0x6C07, 0x5C64, 0x4C45, 0x3CA2, 0x2C83, 0x1CE0, 0x0CC1,
  0xEF1F, 0xFF3E, 0xCF5D, 0xDF7C, 0xAF9B, 0xBFBA, 0x8FD9, 0x9FF8,
  0x6E17, 0x7E36, 0x4E55, 0x5E74, 0x2E93, 0x3EB2, 0x0ED1, 0x1EF0]

/-- `ur_crc16` in `ur_codec.c`: table-driven CRC-16, initial value 0xFFFF;
per byte `crc = (crc << 8) ^ table[((crc >> 8) ^ b) & 0xFF]`, with the
uint16 truncation made explicit. -/
def ur_crc16 (data : List Nat) : Nat :=
  data.foldl
    (fun crc b =>
      ((crc <<< 8) ^^^ crc16_table.getD (((crc >>> 8) ^^^ b) &&& 0xFF) 0) &&& 0xFFFF)
    0xFFFF

/-- One MSB-first CRC shift step for polynomial 0x1021 on a 16-bit value. -/
def crc16_shift (x : Nat) : Nat :=
  if x &&& 0x8000 ≠ 0 then ((x <<< 1) ^^^ 0x1021) &&& 0xFFFF
  else (x <<< 1) &&& 0xFFFF

/-- The CRC-16/CCITT table entry for byte value `n`, generated bitwise from
polynomial 0x1021: eight MSB-first shift steps applied to `n << 8`. -/
def crc16_ccitt_entry (n : Nat) : Nat :=
  crc16_shift (crc16_shift (crc16_shift (crc16_shift
    (crc16_shift (crc16_shift (crc16_shift (crc16_shift (n <<< 8))))))))

/-- CRC-16/CCITT (polynomial 0x1021, initial value 0xFFFF), written from
its definition: the lookup table is generated from the polynomial. -/
def crc16_ccitt (data : List Nat) : Nat :=
  data.foldl
    (fun crc b =>
      ((crc <<< 8) ^^^
        ((List.range 256).map crc16_ccitt_entry).getD (((crc >>> 8) ^^^ b) &&& 0xFF) 0)
        &&& 0xFFFF)
    0xFFFF

/--
`ur_codec_encode_binary` in `ur_codec.c`.  `payload_size` is the frame
payload length: the schema's `payload_size` for a registered schema, else
`UR_CFG_SIGNAL_PAYLOAD_SIZE`.  `buf_size` is the caller's buffer capacity.
The C `memcpy` copies only `min(payload_size, UR_CFG_SIGNAL_PAYLOAD_SIZE)`
signal bytes but advances the write position by `payload_size`; the bytes
left untouched in that gap are the caller buffer's prior contents,
modelled by the `uninit` list.  Byte extraction `x & 0xFF` / `(x >> 8) &
0xFF` on these unsigned values is written `x % 256` / `x / 256 % 256`.
Returns `none` exactly when the C code returns `UR_ERR_NO_MEMORY`.
-/
def ur_codec_encode_binary (sig : Signal) (payload_size buf_size : Nat)
    (uninit : List Nat) : Option (List Nat) :=
  let total_size := UR_CODEC_HEADER_SIZE + payload_size + UR_CODEC_CRC_SIZE
  if buf_size < total_size then none
  else
    let header : List Nat :=
      [UR_CODEC_SYNC_BYTE,
       payload_size % 256, payload_size / 256 % 256,
       sig.id % 256, sig.id / 256 % 256,
       sig.src_id % 256, sig.src_id / 256 % 256]
    let pay : List Nat :=
      sig.payload.take (min payload_size UR_CFG_SIGNAL_PAYLOAD_SIZE) ++
        uninit.take (payload_size - min payload_size UR_CFG_SIGNAL_PAYLOAD_SIZE)
    let crc := ur_crc16 (header.drop 1 ++ pay)
    some (header ++ pay ++ [crc % 256, crc / 256 % 256])

/-- Result record of `ur_codec_decode_binary`
(`ur_codec_decode_result_t`). -/
structure DecodeResult where
  signal : Signal
  consumed : Nat
  complete : Bool
deriving DecidableEq, Repr

/-- The zeroed decode result produced by `memset` before decoding. -/
def zero_decode_result : DecodeResult :=
  { signal := { id := 0, src_id := 0,
                payload := List.replicate UR_CFG_SIGNAL_PAYLOAD_SIZE 0,
                timestamp := 0 },
    consumed := 0, complete := false }

/-- The sync-byte scan of `ur_codec_decode_binary`: index of the first
`UR_CODEC_SYNC_BYTE`, or the list length if absent. -/
def find_sync : List Nat → Nat
  | [] => 0
  | b :: rest => if b = UR_CODEC_SYNC_BYTE then 0 else 1 + find_sync rest

/--
`ur_codec_decode_binary` in `ur_codec.c`.  Byte reads `frame[i]` become
`getD i 0`; 16-bit little-endian reassembly `lo | (hi << 8)` is written
`lo + hi * 256` (the bytes come from a byte buffer, so no bits overlap).
-/
def ur_codec_decode_binary (data : List Nat) : DecodeResult × UrErr :=
  if data.length < UR_CODEC_HEADER_SIZE then
    (zero_decode_result, UrErr.timeout)
  else
    let start := find_sync data
    if start ≥ data.length then
      ({ zero_decode_result with consumed := data.length }, UrErr.timeout)
    else if data.length - start < UR_CODEC_HEADER_SIZE then
      ({ zero_decode_result with consumed := start }, UrErr.timeout)
    else
      let frame := data.drop start
      let payload_len := frame.getD 1 0 + frame.getD 2 0 * 256
      let total_len := UR_CODEC_HEADER_SIZE + payload_len + UR_CODEC_CRC_SIZE
      if data.length - start < total_len then
        ({ zero_decode_result with consumed := start }, UrErr.timeout)
      else
        let expected_crc := frame.getD (total_len - 2) 0 + frame.getD (total_len - 1) 0 * 256
        let actual_crc := ur_crc16 ((frame.drop 1).take (total_len - 3))
        if expected_crc ≠ actual_crc then
          ({ zero_decode_result with consumed := start + 1 }, UrErr.invalid_arg)
        else
          let copy_len := min payload_len UR_CFG_SIGNAL_PAYLOAD_SIZE
          ({ signal :=
               { id := frame.getD 3 0 + frame.getD 4 0 * 256,
                 src_id := frame.getD 5 0 + frame.getD 6 0 * 256,
                 payload := (frame.drop UR_CODEC_HEADER_SIZE).take copy_len ++
                   List.replicate (UR_CFG_SIGNAL_PAYLOAD_SIZE - copy_len) 0,
                 timestamp := 0 },
             consumed := start + total_len, complete := true }, UrErr.ok)

/- ============================================================= -/
/- Emission and registry (`ur_core.c`), pub/sub bus (`ur_bus.c`)  -/
/- ============================================================= -/

/-- The global entity registry `g_entity_registry`: a map from array index
(entity id minus one) to the registered entity, `none` for empty slots. -/
def Registry : Type := Nat → Option Entity

/-- `ur_get_entity`: ids outside `1..UR_CFG_MAX_ENTITIES` resolve to NULL. -/
def ur_get_entity (reg : Registry) (id : Nat) : Option Entity :=
  if id = 0 ∨ id > UR_CFG_MAX_ENTITIES then none else reg (id - 1)

/-- Write one registry slot (the in-place mutation of the entity the slot
points to). -/
def registry_set (reg : Registry) (idx : Nat) (e : Entity) : Registry :=
  fun j => if j = idx then some e else reg j

/--
`ur_emit` in `ur_core.c` (the non-ISR FreeRTOS path): stamp the timestamp
with the current clock when the caller left it zero, then enqueue without
blocking; a full inbox (`UR_CFG_INBOX_SIZE` slots) drops the signal and
returns `queue_full`.
-/
def ur_emit (now : Nat) (target : Entity) (sig : Signal) : Entity × UrErr :=
  let sig := if sig.timestamp = 0 then { sig with timestamp := now } else sig
  if target.inbox.length ≥ UR_CFG_INBOX_SIZE then (target, UrErr.queue_full)
  else ({ target with inbox := target.inbox ++ [sig] }, UrErr.ok)

/-- The signal value actually enqueued by `ur_emit` (after stamping). -/
def emit_stamped (now : Nat) (sig : Signal) : Signal :=
  if sig.timestamp = 0 then { sig with timestamp := now } else sig

/-- Bus limits from `ur_config.h`. -/
def UR_CFG_BUS_MAX_TOPICS : Nat := 64

def UR_CFG_BUS_MAX_SUBSCRIBERS : Nat := 8

/-- A topic record (`ur_bus_topic_t`): signal id plus the dense prefix of
the subscriber array, in subscription order. -/
structure BusTopic where
  topic_id : Nat
  subscribers : List Nat
deriving DecidableEq, Repr

/-- Bus statistics (`ur_bus_stats_t`). -/
structure BusStats where
  publish_count : Nat
  delivery_count : Nat
  drop_count : Nat
  no_subscriber_count : Nat
deriving DecidableEq, Repr

/-- The bus global state `g_bus`. -/
structure BusState where
  topics : List BusTopic
  stats : BusStats
deriving Repr

/-- `find_topic`: first topic record with the given id. -/
def find_topic (bus : BusState) (topic_id : Nat) : Option BusTopic :=
  bus.topics.find? (fun t => t.topic_id == topic_id)

/--
The fan-out loop of `ur_publish`: subscribers in list order; each id is
resolved through the registry (NULL entities are skipped); a successful
emit bumps `delivered` and `delivery_count`, a failed one bumps
`drop_count` and the loop continues.
-/
def publish_fold (now : Nat) (sig : Signal) :
    List Nat → Registry → BusStats → Nat → Registry × BusStats × Nat
  | [], reg, stats, delivered => (reg, stats, delivered)
  | sub :: rest, reg, stats, delivered =>
    match ur_get_entity reg sub with
    | none => publish_fold now sig rest reg stats delivered
    | some ent =>
      let r := ur_emit now ent sig
      if r.2 = UrErr.ok then
        publish_fold now sig rest (registry_set reg (sub - 1) r.1)
          { stats with delivery_count := stats.delivery_count + 1 } (delivered + 1)
      else
        publish_fold now sig rest reg
          { stats with drop_count := stats.drop_count + 1 } delivered

/-- `ur_publish` in `ur_bus.c`. -/
def ur_publish (now : Nat) (reg : Registry) (bus : BusState) (sig : Signal) :
    Registry × BusState × Nat :=
  let stats := { bus.stats with publish_count := bus.stats.publish_count + 1 }
  match find_topic bus sig.id with
  | none =>
    (reg, { bus with stats :=
      { stats with no_subscriber_count := stats.no_subscriber_count + 1 } }, 0)
  | some topic =>
    if topic.subscribers.length = 0 then
      (reg, { bus with stats :=
        { stats with no_subscriber_count := stats.no_subscriber_count + 1 } }, 0)
    else
      let r := publish_fold now sig topic.subscribers reg stats 0
      (r.1, { bus with stats := r.2.1 }, r.2.2)

/-- Whether a subscriber id resolves to an entity with a free inbox slot
(the condition under which `ur_emit` succeeds during fan-out). -/
def ent_has_free_slot (reg : Registry) (sub : Nat) : Bool :=
  match ur_get_entity reg sub with
  | some e => decide (e.inbox.length < UR_CFG_INBOX_SIZE)
  | none => false

/- ============================================================= -/
/- Access control (`ur_acl.c`)                                    -/
/- ============================================================= -/

/-- ACL actions (`ur_acl_action_t`). -/
inductive AclAction where
  | deny
  | allow
  | log
  | transform
deriving DecidableEq, Repr

/-- Default policies (`ur_acl_default_t`). -/
inductive AclDefault where
  | default_allow
  | default_deny
deriving DecidableEq, Repr

/-- Source and signal wildcard sentinels from `ur_acl.h`. -/
def UR_ACL_SRC_ANY : Nat := 0x0000

def UR_ACL_SRC_LOCAL : Nat := 0xFFFE

def UR_ACL_SRC_EXTERNAL : Nat := 0xFFFF

def UR_ACL_SIG_ANY : Nat := 0x0000

def UR_ACL_SIG_SYSTEM : Nat := 0x00FF

def UR_ACL_SIG_USER : Nat := 0xFFFF

/-- An ACL rule (`ur_acl_rule_t`); the log/count/oneshot flag bits are
carried as a plain number. -/
structure AclRule where
  src_id : Nat
  signal_id : Nat
  action : AclAction
  priority : Nat
  flags : Nat
deriving DecidableEq, Repr

/-- A per-entity ACL entry (`acl_entry_t`); the rules list is kept
priority-sorted by registration, and the transform callback is a numeric
function identifier (`none` = NULL). -/
structure AclEntry where
  entity_id : Nat
  rules : List AclRule
  default_policy : AclDefault
  transform_fn : Option Nat
deriving DecidableEq, Repr

/-- ACL statistics (`ur_acl_stats_t`). -/
structure AclStats where
  checked_count : Nat
  allowed_count : Nat
  denied_count : Nat
  logged_count : Nat
  transformed_count : Nat
  default_count : Nat
deriving DecidableEq, Repr

/-- The ACL global state `g_acl`. -/
structure AclState where
  entries : List AclEntry
  stats : AclStats
  initialized : Bool
deriving DecidableEq, Repr

/-- Environment interpreting ACL transform callback identifiers: the
callback may mutate the signal and returns the pass/block flag. -/
def TransformEnv : Type := Nat → Signal → Bool × Signal

/-- `match_source` in `ur_acl.c`. -/
def match_source (rule_src actual_src : Nat) : Bool :=
  if rule_src = UR_ACL_SRC_ANY then true
  else if rule_src = UR_ACL_SRC_LOCAL then
    decide (actual_src ≥ 1 ∧ actual_src ≤ UR_CFG_MAX_ENTITIES)
  else if rule_src = UR_ACL_SRC_EXTERNAL then
    decide (actual_src = 0 ∨ actual_src > UR_CFG_MAX_ENTITIES)
  else rule_src == actual_src

/-- `match_signal` in `ur_acl.c`. -/
def match_signal (rule_sig actual_sig : Nat) : Bool :=
  if rule_sig = UR_ACL_SIG_ANY then true
  else if rule_sig = UR_ACL_SIG_SYSTEM then
    decide (actual_sig ≥ 0x0001 ∧ actual_sig ≤ 0x00FF)
  else if rule_sig = UR_ACL_SIG_USER then
    decide (actual_sig ≥ 0x0100)
  else rule_sig == actual_sig

/-- `find_acl_entry`: first entry registered for the entity id. -/
def find_acl_entry (st : AclState) (entity_id : Nat) : Option AclEntry :=
  st.entries.find? (fun e => e.entity_id == entity_id)

/-- `find_matching_rule`: first rule (in the priority-sorted list) whose
source and signal predicates both match. -/
def find_matching_rule (entry : AclEntry) (sig : Signal) : Option AclRule :=
  entry.rules.find?
    (fun r => match_source r.src_id sig.src_id && match_signal r.signal_id sig.id)

/--
`ur_acl_check` in `ur_acl.c`: uninitialized subsystem or missing entry
degrade open (`ALLOW`); otherwise the first matching rule's action, or the
entity's default policy when no rule matches.  The `checked_count`
increment the C code performs before the lookup is applied together with
the other statistics updates; the lookup never reads the statistics, so
the behaviour is identical.
-/
def ur_acl_check (st : AclState) (entity_id : Nat) (sig : Signal) :
    AclAction × AclState :=
  if ¬ st.initialized then (AclAction.allow, st)
  else
    let stats1 := { st.stats with checked_count := st.stats.checked_count + 1 }
    match find_acl_entry st entity_id with
    | none =>
      (AclAction.allow, { st with stats :=
        { stats1 with default_count := stats1.default_count + 1 } })
    | some entry =>
      match find_matching_rule entry sig with
      | some rule => (rule.action, { st with stats := stats1 })
      | none =>
        (if entry.default_policy = AclDefault.default_allow then AclAction.allow
         else AclAction.deny,
         { st with stats :=
           { stats1 with default_count := stats1.default_count + 1 } })

/--
`ur_acl_filter` in `ur_acl.c`: reduce the checked action to a pass/block
flag.  ALLOW and LOG pass; DENY blocks; TRANSFORM invokes the entity's
transform callback when one is registered (the callback may mutate the
signal and decides pass/block) and passes the signal unmodified when no
callback is registered.
-/
def ur_acl_filter (tf : TransformEnv) (st : AclState) (entity_id : Nat)
    (sig : Signal) : Bool × Signal × AclState :=
  let c := ur_acl_check st entity_id sig
  let st1 := c.2
  match c.1 with
  | AclAction.allow =>
    (true, sig, { st1 with stats :=
      { st1.stats with allowed_count := st1.stats.allowed_count + 1 } })
  | AclAction.deny =>
    (false, sig, { st1 with stats :=
      { st1.stats with denied_count := st1.stats.denied_count + 1 } })
  | AclAction.log =>
    (true, sig, { st1 with stats :=
      { st1.stats with logged_count := st1.stats.logged_count + 1,
                       allowed_count := st1.stats.allowed_count + 1 } })
  | AclAction.transform =>
    match find_acl_entry st1 entity_id with
    | some entry =>
      match entry.transform_fn with
      | some fnId =>
        let r := tf fnId sig
        if r.1 then
          (true, r.2, { st1 with stats :=
            { st1.stats with transformed_count := st1.stats.transformed_count + 1,
                             allowed_count := st1.stats.allowed_count + 1 } })
        else
          (false, r.2, { st1 with stats :=
            { st1.stats with denied_count := st1.stats.denied_count + 1 } })
      | none =>
        (true, sig, { st1 with stats :=
          { st1.stats with allowed_count := st1.stats.allowed_count + 1 } })
    | none =>
      (true, sig, { st1 with stats :=
        { st1.stats with allowed_count := st1.stats.allowed_count + 1 } })

/- ============================================================= -/
/- Parameter store (`ur_param.c`)                                 -/
/- ============================================================= -/

/-- `SIG_PARAM_CHANGED` from `ur_param.h`. -/
def SIG_PARAM_CHANGED : Nat := 0x0020

/-- Parameter type tags (`ur_param_type_t`). -/
inductive ParamType where
  | u8
  | u16
  | u32
  | i8
  | i16
  | i32
  | f32
  | boolT
  | strT
  | blobT
deriving DecidableEq, Repr

/-- A parameter value (the `ur_param_value_t` union), tagged by shape.
Scalar members (u8..i32, bool, f32) are carried as one number; for f32
this is the raw bit pattern, so `f32` equality in the model is bit
equality, not IEEE `==` — no theorem below quantifies over `f32`. -/
inductive ParamValue where
  | num (n : Int)
  | strv (s : List Nat)
  | blobv (b : List Nat)
deriving DecidableEq, Repr

/-- The string content of a value (reading the `str` union member). -/
def value_str (v : ParamValue) : List Nat :=
  match v with
  | ParamValue.strv s => s
  | _ => []

/-- The blob content of a value (reading the `blob` union member). -/
def value_blob (v : ParamValue) : List Nat :=
  match v with
  | ParamValue.blobv b => b
  | _ => []

/-- A parameter definition (`ur_param_def_t`); the PERSIST / READONLY /
NOTIFY flag bits are modelled as booleans, `size` is the declared STR/BLOB
capacity. -/
structure ParamDef where
  id : Nat
  type : ParamType
  persist : Bool
  readonly : Bool
  notify : Bool
  size : Nat
  default_val : ParamValue
deriving DecidableEq, Repr

/-- A runtime parameter entry (`ur_param_entry_t`); `dirty` is the runtime
`UR_PARAM_FLAG_DIRTY` bit. -/
structure ParamEntry where
  pdef : ParamDef
  value : ParamValue
  dirty : Bool
deriving DecidableEq, Repr

/-- Observable parameter-store effects: a storage `save` call and a
`SIG_PARAM_CHANGED` publication, each carrying the parameter id. -/
inductive PEvent where
  | save (id : Nat)
  | notifyChanged (id : Nat)
deriving DecidableEq, Repr

/-- Whether an effect is a `SIG_PARAM_CHANGED` publication. -/
def is_notify : PEvent → Bool
  | PEvent.notifyChanged _ => true
  | PEvent.save _ => false

/-- The parameter-store global state `g_param`; `storage` tells whether a
backend with a `save` function is installed (the backend itself is
modelled as always succeeding, like the RAM backend `ur_param_storage_ram`). -/
structure ParamState where
  entries : List ParamEntry
  batch_mode : Bool
  storage : Bool
deriving DecidableEq, Repr

/-- `save_entry` in `ur_param.c`: a no-op without a backend or for a
non-persistent parameter; otherwise one backend save call, clearing the
dirty bit on success. -/
def save_entry (storage : Bool) (e : ParamEntry) : ParamEntry × List PEvent :=
  if ¬ storage then (e, [])
  else if ¬ e.pdef.persist then (e, [])
  else ({ e with dirty := false }, [PEvent.save e.pdef.id])

/--
The body shared by the scalar typed setters (`PARAM_SET_IMPL` in
`ur_param.c`), walking the entry list as `find_entry` does and mutating
the found entry in place: not-found / type-mismatch / read-only checks,
the equal-value short-circuit, then write + dirty, conditional immediate
save, conditional change notification.
-/
def set_num_go (batch storage : Bool) (ty : ParamType) (id : Nat) (v : Int) :
    List ParamEntry → List ParamEntry × List PEvent × UrErr
  | [] => ([], [], UrErr.not_found)
  | e :: rest =>
    if e.pdef.id = id then
      if e.pdef.type ≠ ty then (e :: rest, [], UrErr.invalid_arg)
      else if e.pdef.readonly then (e :: rest, [], UrErr.invalid_state)
      else if e.value = ParamValue.num v then (e :: rest, [], UrErr.ok)
      else
        let e1 : ParamEntry := { e with value := ParamValue.num v, dirty := true }
        let saved :=
          if ¬ batch ∧ e.pdef.persist then save_entry storage e1 else (e1, [])
        let nevs := if e.pdef.notify then [PEvent.notifyChanged id] else []
        (saved.1 :: rest, saved.2 ++ nevs, UrErr.ok)
    else
      let r := set_num_go batch storage ty id v rest
      (e :: r.1, r.2.1, r.2.2)

/-- A scalar typed set operation (`ur_param_set_u8` .. `ur_param_set_bool`),
with `ty` naming which typed setter is called. -/
def ur_param_set_num (st : ParamState) (ty : ParamType) (id : Nat) (v : Int) :
    ParamState × List PEvent × UrErr :=
  let r := set_num_go st.batch_mode st.storage ty id v st.entries
  ({ st with entries := r.1 }, r.2.1, r.2.2)

/-- `strncmp(a, b, n) == 0` for NUL-free C strings: the first `n`
characters agree (comparison stops at the shorter string's end). -/
def strncmp_eq (a b : List Nat) (n : Nat) : Bool :=
  a.take n == b.take n

/-- The entry-list walk of `ur_param_set_str`:  equal-prefix
short-circuit via `strncmp(current, value, size-1)`, else
`strncpy`-truncated store of the first `size-1` characters. -/
def set_str_go (batch storage : Bool) (id : Nat) (v : List Nat) :
    List ParamEntry → List ParamEntry × List PEvent × UrErr
  | [] => ([], [], UrErr.not_found)
  | e :: rest =>
    if e.pdef.id = id then
      if e.pdef.type ≠ ParamType.strT then (e :: rest, [], UrErr.invalid_arg)
      else if e.pdef.readonly then (e :: rest, [], UrErr.invalid_state)
      else if strncmp_eq (value_str e.value) v (e.pdef.size - 1) then
        (e :: rest, [], UrErr.ok)
      else
        let e1 : ParamEntry :=
          { e with value := ParamValue.strv (v.take (e.pdef.size - 1)), dirty := true }
        let saved :=
          if ¬ batch ∧ e.pdef.persist then save_entry storage e1 else (e1, [])
        let nevs := if e.pdef.notify then [PEvent.notifyChanged id] else []
        (saved.1 :: rest, saved.2 ++ nevs, UrErr.ok)
    else
      let r := set_str_go batch storage id v rest
      (e :: r.1, r.2.1, r.2.2)

/-- `ur_param_set_str` in `ur_param.c`. -/
def ur_param_set_str (st : ParamState) (id : Nat) (v : List Nat) :
    ParamState × List PEvent × UrErr :=
  let r := set_str_go st.batch_mode st.storage id v st.entries
  ({ st with entries := r.1 }, r.2.1, r.2.2)

/-- The entry-list walk of `ur_param_set_blob`: `memcpy` of the first
`min(len, size)` bytes over the stored blob — with no comparison against
the current value — then dirty, conditional save and notification. -/
def set_blob_go (batch storage : Bool) (id : Nat) (data : List Nat) (len : Nat) :
    List ParamEntry → List ParamEntry × List PEvent × UrErr
  | [] => ([], [], UrErr.not_found)
  | e :: rest =>
    if e.pdef.id = id then
      if e.pdef.type ≠ ParamType.blobT then (e :: rest, [], UrErr.invalid_arg)
      else if e.pdef.readonly then (e :: rest, [], UrErr.invalid_state)
      else
        let copy_len := min len e.pdef.size
        let newBlob := data.take copy_len ++ (value_blob e.value).drop copy_len
        let e1 : ParamEntry :=
          { e with value := ParamValue.blobv newBlob, dirty := true }
        let saved :=
          if ¬ batch ∧ e.pdef.persist then save_entry storage e1 else (e1, [])
        let nevs := if e.pdef.notify then [PEvent.notifyChanged id] else []
        (saved.1 :: rest, saved.2 ++ nevs, UrErr.ok)
    else
      let r := set_blob_go batch storage id data len rest
      (e :: r.1, r.2.1, r.2.2)

/-- `ur_param_set_blob` in `ur_param.c` (NULL data / zero length are
rejected up front). -/
def ur_param_set_blob (st : ParamState) (id : Nat) (data : List Nat)
    (len : Nat) : ParamState × List PEvent × UrErr :=
  if len = 0 then (st, [], UrErr.invalid_arg)
  else
    let r := set_blob_go st.batch_mode st.storage id data len st.entries
    ({ st with entries := r.1 }, r.2.1, r.2.2)

/- ============================================================= -/
/- Concrete scenario data used by witnesses and counterexamples   -/
/- ============================================================= -/

/-- An action environment in which every action returns 0 ("stay"). -/
def actEnvZero : ActionEnv := fun _ _ _ => 0

/-- A middleware environment in which every middleware passes the signal
through unchanged. -/
def mwEnvPass : MwEnv := fun _ _ s => (MwResult.mwContinue, s)

/-- A transform environment in which every callback passes unchanged. -/
def tfEnvPass : TransformEnv := fun _ s => (true, s)

/-- HSM bubble-up scenario: parent state STANDBY (id 1) with rule
`{POWER_OFF, STANDBY, act_power_off}`; action id 10, entry id 11,
exit id 12. -/
def c2_standby : StateDef :=
  { id := 1, parent_id := 0, on_entry := some 11, on_exit := some 12,
    rules := [{ signal_id := 0x0100, next_state := 1, action := some 10 }] }

/-- HSM bubble-up scenario: child state NORMAL (id 2, parent STANDBY) with
no rules; entry id 13, exit id 14. -/
def c2_normal : StateDef :=
  { id := 2, parent_id := 1, on_entry := some 13, on_exit := some 14,
    rules := [] }

/-- The POWER_OFF signal (user signal 0x0100) of the bubble-up scenario. -/
def c2_sig : Signal :=
  { id := 0x0100, src_id := 0, payload := [0, 0, 0, 0], timestamp := 5 }

/-- The bubble-up scenario entity: in child state NORMAL, no mixins, no
middleware, POWER_OFF pending in the inbox. -/
def c2_entity : Entity :=
  { id := 7, current_state := 2, states := [c2_standby, c2_normal],
    mixins := [], middleware := [],
    flow_line := 0, flow_wait_sig := 0, flow_wait_until := 0,
    flow_running := false, active := true, suspended := false,
    inbox := [c2_sig] }

/-- A single state with entry action 21 and exit action 22, used by the
self-transition witness. -/
def c9_state : StateDef :=
  { id := 1, parent_id := 0, on_entry := some 21, on_exit := some 22,
    rules := [] }

/-- Witness entity for the self-transition claim: currently in state 1,
with nonzero flow coroutine state to make the reset observable. -/
def c9_entity : Entity :=
  { id := 3, current_state := 1, states := [c9_state],
    mixins := [], middleware := [],
    flow_line := 4, flow_wait_sig := 0x0200, flow_wait_until := 99,
    flow_running := true, active := true, suspended := false, inbox := [] }

/-- All-zero ACL statistics. -/
def aclStatsZero : AclStats :=
  { checked_count := 0, allowed_count := 0, denied_count := 0,
    logged_count := 0, transformed_count := 0, default_count := 0 }

/-- ACL witness scenario (spec scenario 5): entity 4 with rules
`[{LOCAL, ANY, ALLOW}, {EXTERNAL, FACTORY_RESET, DENY}]`, default ALLOW. -/
def c6_entry : AclEntry :=
  { entity_id := 4,
    rules :=
      [{ src_id := UR_ACL_SRC_LOCAL, signal_id := UR_ACL_SIG_ANY,
         action := AclAction.allow, priority := 0, flags := 0 },
       { src_id := UR_ACL_SRC_EXTERNAL, signal_id := 0x0300,
         action := AclAction.deny, priority := 1, flags := 0 }],
    default_policy := AclDefault.default_allow, transform_fn := none }

/-- ACL witness state holding only `c6_entry`. -/
def c6_state : AclState :=
  { entries := [c6_entry], stats := aclStatsZero, initialized := true }

/-- An external FACTORY_RESET signal (src 0, user signal 0x0300). -/
def c6_sig : Signal :=
  { id := 0x0300, src_id := 0, payload := [0, 0, 0, 0], timestamp := 1 }

/-- ACL transform witness scenario: entity 5 with a catch-all TRANSFORM
rule and no transform callback registered. -/
def c10_entry : AclEntry :=
  { entity_id := 5,
    rules :=
      [{ src_id := UR_ACL_SRC_ANY, signal_id := UR_ACL_SIG_ANY,
         action := AclAction.transform, priority := 0, flags := 0 }],
    default_policy := AclDefault.default_allow, transform_fn := none }

/-- ACL state holding only `c10_entry`. -/
def c10_state : AclState :=
  { entries := [c10_entry], stats := aclStatsZero, initialized := true }

/-- A user signal aimed at entity 5. -/
def c10_sig : Signal :=
  { id := 0x0240, src_id := 2, payload := [9, 0, 0, 0], timestamp := 4 }

/-- Blob parameter (id 1, NOTIFY set, not read-only, no backend) used to
exhibit the missing short-circuit of `ur_param_set_blob`. -/
def c7_blob_state : ParamState :=
  { entries :=
      [{ pdef := { id := 1, type := ParamType.blobT, persist := false,
                   readonly := false, notify := true, size := 4,
                   default_val := ParamValue.blobv [0, 0, 0, 0] },
         value := ParamValue.blobv [0, 0, 0, 0], dirty := false }],
    batch_mode := false, storage := false }

/-- A u32 parameter (id 2, PERSIST and NOTIFY set, backend present) used to
witness scalar set idempotence. -/
def c7_u32_state : ParamState :=
  { entries :=
      [{ pdef := { id := 2, type := ParamType.u32, persist := true,
                   readonly := false, notify := true, size := 0,
                   default_val := ParamValue.num 0 },
         value := ParamValue.num 5, dirty := false }],
    batch_mode := false, storage := true }

/-- A string parameter (id 3, NOTIFY set, capacity 8) used to witness
string set idempotence. -/
def c7_str_state : ParamState :=
  { entries :=
      [{ pdef := { id := 3, type := ParamType.strT, persist := false,
                   readonly := false, notify := true, size := 8,
                   default_val := ParamValue.strv [] },
         value := ParamValue.strv [104, 105], dirty := false }],
    batch_mode := false, storage := false }

/-- Basic transition scenario state IDLE (id 1) with rule
`{BUTTON_PRESS, BLINKING, act_start}` (action id 50, exit id 51). -/
def c3_idle : StateDef :=
  { id := 1, parent_id := 0, on_entry := some 53, on_exit := some 51,
    rules := [{ signal_id := 0x0101, next_state := 2, action := some 50 }] }

/-- Basic transition scenario state BLINKING (id 2, entry id 52). -/
def c3_blinking : StateDef :=
  { id := 2, parent_id := 0, on_entry := some 52, on_exit := some 54,
    rules := [] }

/-- The BUTTON_PRESS signal of the basic transition scenario. -/
def c3_sig : Signal :=
  { id := 0x0101, src_id := 0, payload := [0, 0, 0, 0], timestamp := 3 }

/-- Basic transition scenario entity: in IDLE, BUTTON_PRESS pending, with
nonzero flow coroutine state so its reset is observable. -/
def c3_entity : Entity :=
  { id := 1, current_state := 1, states := [c3_idle, c3_blinking],
    mixins := [], middleware := [],
    flow_line := 2, flow_wait_sig := 7, flow_wait_until := 11,
    flow_running := true, active := true, suspended := false,
    inbox := [c3_sig] }

/-- A minimal single-state table for the pub/sub witness entities. -/
def c5_states : List StateDef :=
  [{ id := 1, parent_id := 0, on_entry := none, on_exit := none, rules := [] }]

/-- Pub/sub witness subscriber A (entity id 1, empty inbox). -/
def c5_entA : Entity :=
  { id := 1, current_state := 1, states := c5_states, mixins := [],
    middleware := [], flow_line := 0, flow_wait_sig := 0, flow_wait_until := 0,
    flow_running := false, active := true, suspended := false, inbox := [] }

/-- Pub/sub witness subscriber B (entity id 2, empty inbox). -/
def c5_entB : Entity :=
  { id := 2, current_state := 1, states := c5_states, mixins := [],
    middleware := [], flow_line := 0, flow_wait_sig := 0, flow_wait_until := 0,
    flow_running := false, active := true, suspended := false, inbox := [] }

/-- Pub/sub witness registry: entities 1 and 2 registered. -/
def c5_registry : Registry :=
  fun j => if j = 0 then some c5_entA else if j = 1 then some c5_entB else none

/-- Pub/sub witness bus: topic BATTERY_LEVEL (0x0200) with subscribers
`[1, 2]`, zeroed statistics. -/
def c5_bus : BusState :=
  { topics := [{ topic_id := 0x0200, subscribers := [1, 2] }],
    stats := { publish_count := 0, delivery_count := 0, drop_count := 0,
               no_subscriber_count := 0 } }

/-- The published BATTERY_LEVEL signal (spec scenario 3):
`{id=BATTERY_LEVEL, src=bat(3), payload.u8[0]=42}`. -/
def c5_sig : Signal :=
  { id := 0x0200, src_id := 3, payload := [42, 0, 0, 0], timestamp := 6 }

/-- Codec witness signal (spec scenario 4):
`{id=0x0120, src=7, payload.u32[0]=0xDEADBEEF, ts=1234}` — the payload
bytes are the little-endian image of 0xDEADBEEF. -/
def c4_sig : Signal :=
  { id := 0x0120, src_id := 7, payload := [0xEF, 0xBE, 0xAD, 0xDE],
    timestamp := 1234 }

/-- A middleware environment in which every middleware reports HANDLED. -/
def mwEnvHandled : MwEnv := fun _ _ s => (MwResult.mwHandled, s)

/-- Middleware witness scenario state: one state with a rule (and action)
for the pending signal, so the skipped rule lookup is observable. -/
def c8_state : StateDef :=
  { id := 1, parent_id := 0, on_entry := some 41, on_exit := some 42,
    rules := [{ signal_id := 0x0180, next_state := 2, action := some 40 }] }

/-- The pending signal of the middleware witness scenario. -/
def c8_sig : Signal :=
  { id := 0x0180, src_id := 1, payload := [0, 0, 0, 0], timestamp := 9 }

/-- Middleware witness entity: active, one enabled middleware, the signal
pending; its state has a matching rule that must not run. -/
def c8_entity : Entity :=
  { id := 2, current_state := 1,
    states := [c8_state,
      { id := 2, parent_id := 0, on_entry := some 43, on_exit := some 44,
        rules := [] }],
    mixins := [],
    middleware := [{ fn := 1, priority := 0, enabled := true }],
    flow_line := 6, flow_wait_sig := 0x0500, flow_wait_until := 77,
    flow_running := true, active := true, suspended := false,
    inbox := [c8_sig] }

/- ============================================================= -/
/- Theorems                                                       -/
/- ============================================================= -/

/-- Helper: `save_entry` never changes the definition record. -/
theorem save_entry_pdef (storage : Bool) (e : ParamEntry) :
    (save_entry storage e).1.pdef = e.pdef := by
  unfold save_entry
  split
  · rfl
  · split <;> rfl

/-- Helper: `save_entry` never changes the stored value. -/
theorem save_entry_value (storage : Bool) (e : ParamEntry) :
    (save_entry storage e).1.value = e.value := by
  unfold save_entry
  split
  · rfl
  · split <;> rfl

/-- Helper: `save_entry` publishes no change notification. -/
theorem save_entry_no_notify (storage : Bool) (e : ParamEntry) :
    (save_entry storage e).2.filter is_notify = [] := by
  unfold save_entry
  split
  · rfl
  · split <;> rfl

/-- Helper: a scalar set whose head entry matches the id, type, is
writable and already holds the value short-circuits with no effects. -/
theorem set_num_go_head_equal (batch storage : Bool) (ty : ParamType)
    (id : Nat) (v : Int) (f : ParamEntry) (rest : List ParamEntry)
    (h1 : f.pdef.id = id) (h2 : f.pdef.type = ty)
    (h3 : f.pdef.readonly = false) (h4 : f.value = ParamValue.num v) :
    set_num_go batch storage ty id v (f :: rest) = (f :: rest, [], UrErr.ok) := by
  simp [set_num_go, h1, h2, h3, h4]

/-- Helper: two successive identical scalar sets publish at most one
change notification. -/
theorem set_num_go_twice (batch storage : Bool) (ty : ParamType)
    (id : Nat) (v : Int) (entries : List ParamEntry) :
    (((set_num_go batch storage ty id v entries).2.1 ++
      (set_num_go batch storage ty id v
        (set_num_go batch storage ty id v entries).1).2.1).filter is_notify).length ≤ 1 := by
  induction entries with
  | nil => simp [set_num_go]
  | cons e rest ih =>
    by_cases hid : e.pdef.id = id
    · by_cases hty : e.pdef.type = ty
      · by_cases hro : e.pdef.readonly = true
        · simp [set_num_go, hid, hty, hro]
        · have hro2 : e.pdef.readonly = false := by
            revert hro
            cases e.pdef.readonly <;> simp
          by_cases heq : e.value = ParamValue.num v
          · simp [set_num_go, hid, hty, hro, heq]
          · have h1 : set_num_go batch storage ty id v (e :: rest) =
                ((if ¬batch = true ∧ e.pdef.persist = true then
                    save_entry storage { pdef := e.pdef, value := ParamValue.num v, dirty := true }
                  else ({ pdef := e.pdef, value := ParamValue.num v, dirty := true }, [])).1 :: rest,
                 (if ¬batch = true ∧ e.pdef.persist = true then
                    save_entry storage { pdef := e.pdef, value := ParamValue.num v, dirty := true }
                  else ({ pdef := e.pdef, value := ParamValue.num v, dirty := true }, [])).2 ++
                   (if e.pdef.notify = true then [PEvent.notifyChanged id] else []),
                 UrErr.ok) := by
              simp [set_num_go, hid, hty, hro, heq]
            have hXp : (if ¬batch = true ∧ e.pdef.persist = true then
                save_entry storage { pdef := e.pdef, value := ParamValue.num v, dirty := true }
              else ({ pdef := e.pdef, value := ParamValue.num v, dirty := true }, [])).1.pdef
                = e.pdef := by
              split
              · exact save_entry_pdef storage _
              · rfl
            have hXv : (if ¬batch = true ∧ e.pdef.persist = true then
                save_entry storage { pdef := e.pdef, value := ParamValue.num v, dirty := true }
              else ({ pdef := e.pdef, value := ParamValue.num v, dirty := true }, [])).1.value
                = ParamValue.num v := by
              split
              · exact save_entry_value storage _
              · rfl
            have hXn : List.filter is_notify
                (if ¬batch = true ∧ e.pdef.persist = true then
                  save_entry storage { pdef := e.pdef, value := ParamValue.num v, dirty := true }
                else ({ pdef := e.pdef, value := ParamValue.num v, dirty := true }, [])).2
                = [] := by
              split
              · exact save_entry_no_notify storage _
              · rfl
            rw [h1, set_num_go_head_equal batch storage ty id v _ rest
              (by rw [hXp]; exact hid) (by rw [hXp]; exact hty)
              (by rw [hXp]; exact hro2) hXv]
            simp only [List.filter_append, hXn, List.nil_append, List.append_nil,
              List.length_append]
            by_cases hn : e.pdef.notify = true <;> simp [hn, is_notify]
      · simp [set_num_go, hid, hty]
    · have h1 : set_num_go batch storage ty id v (e :: rest) =
          (e :: (set_num_go batch storage ty id v rest).1,
           (set_num_go batch storage ty id v rest).2.1,
           (set_num_go batch storage ty id v rest).2.2) := by
        simp [set_num_go, hid]
      rw [h1]
      have h2 : set_num_go batch storage ty id v
          (e :: (set_num_go batch storage ty id v rest).1) =
          (e :: (set_num_go batch storage ty id v ((set_num_go batch storage ty id v rest).1)).1,
           (set_num_go batch storage ty id v ((set_num_go batch storage ty id v rest).1)).2.1,
           (set_num_go batch storage ty id v ((set_num_go batch storage ty id v rest).1)).2.2) := by
        simp [set_num_go, hid]
      rw [h2]
      exact ih

/-- Helper: the `strncmp` prefix comparison accepts the stored truncation
of the same source string. -/
theorem strncmp_eq_take_self (v : List Nat) (n : Nat) :
    strncmp_eq (v.take n) v n = true := by
  simp [strncmp_eq, List.take_take]

/-- Helper: a string set whose head entry matches and compares equal under
`strncmp` short-circuits with no effects. -/
theorem set_str_go_head_equal (batch storage : Bool)
    (id : Nat) (v : List Nat) (f : ParamEntry) (rest : List ParamEntry)
    (h1 : f.pdef.id = id) (h2 : f.pdef.type = ParamType.strT)
    (h3 : f.pdef.readonly = false)
    (h4 : strncmp_eq (value_str f.value) v (f.pdef.size - 1) = true) :
    set_str_go batch storage id v (f :: rest) = (f :: rest, [], UrErr.ok) := by
  simp [set_str_go, h1, h2, h3, h4]

/-- Helper: two successive identical string sets publish at most one
change notification. -/
theorem set_str_go_twice (batch storage : Bool)
    (id : Nat) (v : List Nat) (entries : List ParamEntry) :
    (((set_str_go batch storage id v entries).2.1 ++
      (set_str_go batch storage id v
        (set_str_go batch storage id v entries).1).2.1).filter is_notify).length ≤ 1 := by
  induction entries with
  | nil => simp [set_str_go]
  | cons e rest ih =>
    by_cases hid : e.pdef.id = id
    · by_cases hty : e.pdef.type = ParamType.strT
      · by_cases hro : e.pdef.readonly = true
        · simp [set_str_go, hid, hty, hro]
        · have hro2 : e.pdef.readonly = false := by
            revert hro
            cases e.pdef.readonly <;> simp
          by_cases heq : strncmp_eq (value_str e.value) v (e.pdef.size - 1) = true
          · simp [set_str_go, hid, hty, hro, heq]
          · have h1 : set_str_go batch storage id v (e :: rest) =
                ((if ¬batch = true ∧ e.pdef.persist = true then
                    save_entry storage
                      { pdef := e.pdef, value := ParamValue.strv (v.take (e.pdef.size - 1)), dirty := true }
                  else ({ pdef := e.pdef, value := ParamValue.strv (v.take (e.pdef.size - 1)), dirty := true }, [])).1 :: rest,
                 (if ¬batch = true ∧ e.pdef.persist = true then
                    save_entry storage
                      { pdef := e.pdef, value := ParamValue.strv (v.take (e.pdef.size - 1)), dirty := true }
                  else ({ pdef := e.pdef, value := ParamValue.strv (v.take (e.pdef.size - 1)), dirty := true }, [])).2 ++
                   (if e.pdef.notify = true then [PEvent.notifyChanged id] else []),
                 UrErr.ok) := by
              simp [set_str_go, hid, hty, hro, heq]
            have hXp : (if ¬batch = true ∧ e.pdef.persist = true then
                save_entry storage
                  { pdef := e.pdef, value := ParamValue.strv (v.take (e.pdef.size - 1)), dirty := true }
              else ({ pdef := e.pdef, value := ParamValue.strv (v.take (e.pdef.size - 1)), dirty := true }, [])).1.pdef
                = e.pdef := by
              split
              · exact save_entry_pdef storage _
              · rfl
            have hXv : (if ¬batch = true ∧ e.pdef.persist = true then
                save_entry storage
                  { pdef := e.pdef, value := ParamValue.strv (v.take (e.pdef.size - 1)), dirty := true }
              else ({ pdef := e.pdef, value := ParamValue.strv (v.take (e.pdef.size - 1)), dirty := true }, [])).1.value
                = ParamValue.strv (v.take (e.pdef.size - 1)) := by
              split
              · exact save_entry_value storage _
              · rfl
            have hXn : List.filter is_notify
                (if ¬batch = true ∧ e.pdef.persist = true then
                  save_entry storage
                    { pdef := e.pdef, value := ParamValue.strv (v.take (e.pdef.size - 1)), dirty := true }
                else ({ pdef := e.pdef, value := ParamValue.strv (v.take (e.pdef.size - 1)), dirty := true }, [])).2
                = [] := by
              split
              · exact save_entry_no_notify storage _
              · rfl
            rw [h1, set_str_go_head_equal batch storage id v _ rest
              (by rw [hXp]; exact hid) (by rw [hXp]; exact hty)
              (by rw [hXp]; exact hro2)
              (by rw [hXv, hXp]; exact strncmp_eq_take_self v (e.pdef.size - 1))]
            simp only [List.filter_append, hXn, List.nil_append, List.append_nil,
              List.length_append]
            by_cases hn : e.pdef.notify = true <;> simp [hn, is_notify]
      · simp [set_str_go, hid, hty]
    · have h1 : set_str_go batch storage id v (e :: rest) =
          (e :: (set_str_go batch storage id v rest).1,
           (set_str_go batch storage id v rest).2.1,
           (set_str_go batch storage id v rest).2.2) := by
        simp [set_str_go, hid]
      rw [h1]
      have h2 : set_str_go batch storage id v
          (e :: (set_str_go batch storage id v rest).1) =
          (e :: (set_str_go batch storage id v ((set_str_go batch storage id v rest).1)).1,
           (set_str_go batch storage id v ((set_str_go batch storage id v rest).1)).2.1,
           (set_str_go batch storage id v ((set_str_go batch storage id v rest).1)).2.2) := by
        simp [set_str_go, hid]
      rw [h2]
      exact ih

/-- Helper: `ur_acl_check` never changes the entry table (it only bumps
statistics). -/
theorem ur_acl_check_entries (st : AclState) (entity_id : Nat) (sig : Signal) :
    (ur_acl_check st entity_id sig).2.entries = st.entries := by
  unfold ur_acl_check
  split
  · rfl
  · dsimp only
    split
    · rfl
    · split <;> rfl

/--
C1 (code bug in `ur_power.c`): the spec and the header comment on
`ur_power_lock` ("prevents the system from entering the specified mode or
deeper") require that after a single `lock(e, LIGHT_SLEEP)` the allowed
mode is IDLE.  The code checks each mode for an exact-mode lock only, so
`ur_power_get_allowed_mode` still returns DEEP_SLEEP: with the empty lock
set it returns DEEP_SLEEP (as claimed), and after one LIGHT_SLEEP lock it
still returns DEEP_SLEEP, not IDLE.
-/
theorem C1_power_allowed_mode_ignores_deeper_modes :
    ur_power_get_allowed_mode ur_power_init = UR_POWER_DEEP_SLEEP ∧
    (ur_power_lock ur_power_init 5 UR_POWER_LIGHT_SLEEP).2 = UrErr.ok ∧
    ur_power_get_allowed_mode
        (ur_power_lock ur_power_init 5 UR_POWER_LIGHT_SLEEP).1 =
      UR_POWER_DEEP_SLEEP ∧
    UR_POWER_DEEP_SLEEP ≠ UR_POWER_IDLE := by
  decide

/--
C2 counterexample: in the bubble-up scenario (entity in child NORMAL,
parent STANDBY holding `{POWER_OFF, STANDBY, act_power_off}`, action
returning 0), dispatching POWER_OFF does NOT leave `current_state` at
NORMAL: the rule's next state (STANDBY) is nonzero and differs from the
current state, so the transition protocol runs.
-/
theorem C2_counterexample_bubble_up_transitions :
    ¬ ((ur_dispatch actEnvZero mwEnvPass c2_entity).1.current_state =
        c2_entity.current_state) := by
  decide

/--
C2 (amended): dispatching POWER_OFF to the bubble-up scenario entity runs
`act_power_off` (id 10) exactly once via the parent rule, and — because
the rule's next state STANDBY is nonzero and differs from the current
child state NORMAL — then performs the full transition protocol: NORMAL's
on-exit (id 14) with a synthesized EXIT signal, flow-state reset, state
swap to STANDBY, and STANDBY's on-entry (id 11) with a synthesized ENTRY
signal.
-/
theorem C2_amended_bubble_up_runs_parent_rule_then_transitions :
    ur_dispatch actEnvZero mwEnvPass c2_entity =
      ({ c2_entity with inbox := [], current_state := 1 },
       [Event.invoke 10 c2_sig,
        Event.invoke 14 (ur_signal_create SIG_SYS_EXIT 7),
        Event.invoke 11 (ur_signal_create SIG_SYS_ENTRY 7)],
       UrErr.ok) := by
  decide

/--
C9: `ur_set_state` with a target equal to the entity's current (nonzero,
existing) state is not short-circuited: it still runs that state's
on-exit action, zeroes the flow coroutine state (line, awaited signal,
wake time, flow-running flag), runs the same state's on-entry action, and
returns `UR_OK` with `current_state` unchanged.
-/
theorem C9_set_state_self_runs_exit_and_entry (ent : Entity) (st : StateDef)
    (hcs : ent.current_state ≠ 0)
    (hfind : find_state ent ent.current_state = some st) :
    ur_set_state ent ent.current_state =
      ({ ent with flow_line := 0, flow_wait_sig := SIG_NONE,
                  flow_wait_until := 0, flow_running := false },
       optInvoke st.on_exit (ur_signal_create SIG_SYS_EXIT ent.id) ++
         optInvoke st.on_entry (ur_signal_create SIG_SYS_ENTRY ent.id),
       UrErr.ok) := by
  simp [ur_set_state, hfind, hcs]

/-- Witness for C9 on a concrete entity: hypotheses hold and the
self-targeted `ur_set_state` runs exit 22 then entry 21, zeroing the flow
state and keeping `current_state = 1`. -/
theorem C9_witness :
    c9_entity.current_state ≠ 0 ∧
    find_state c9_entity c9_entity.current_state = some c9_state ∧
    ur_set_state c9_entity c9_entity.current_state =
      ({ c9_entity with flow_line := 0, flow_wait_sig := SIG_NONE,
                        flow_wait_until := 0, flow_running := false },
       optInvoke c9_state.on_exit (ur_signal_create SIG_SYS_EXIT c9_entity.id) ++
         optInvoke c9_state.on_entry (ur_signal_create SIG_SYS_ENTRY c9_entity.id),
       UrErr.ok) :=
  ⟨by decide, by decide,
   C9_set_state_self_runs_exit_and_entry c9_entity c9_state (by decide) (by decide)⟩

/--
C6: `ur_acl_check` returns the action of the first rule (in the
priority-sorted rule list) whose source predicate matches the signal's
source id and whose signal predicate matches the signal's id, and the
entity's default policy when no rule matches; the source predicates
satisfy: ANY matches everything, LOCAL matches src in
`1..UR_CFG_MAX_ENTITIES`, EXTERNAL matches src 0 or above the cap, and a
literal (non-sentinel) value matches only itself; the signal predicates
satisfy: ANY matches everything, SYSTEM matches `0x0001..0x00FF`, USER
matches ids at least 0x0100, and a literal matches only itself.
-/
theorem C6_acl_check_first_match_and_predicates :
    (∀ (st : AclState) (entity_id : Nat) (sig : Signal) (entry : AclEntry),
      st.initialized = true →
      find_acl_entry st entity_id = some entry →
      (ur_acl_check st entity_id sig).1 =
        (match find_matching_rule entry sig with
         | some rule => rule.action
         | none =>
           if entry.default_policy = AclDefault.default_allow then AclAction.allow
           else AclAction.deny)) ∧
    (∀ a, match_source UR_ACL_SRC_ANY a = true) ∧
    (∀ a, match_source UR_ACL_SRC_LOCAL a = true ↔
      1 ≤ a ∧ a ≤ UR_CFG_MAX_ENTITIES) ∧
    (∀ a, match_source UR_ACL_SRC_EXTERNAL a = true ↔
      a = 0 ∨ a > UR_CFG_MAX_ENTITIES) ∧
    (∀ r a, r ≠ UR_ACL_SRC_ANY → r ≠ UR_ACL_SRC_LOCAL →
      r ≠ UR_ACL_SRC_EXTERNAL → (match_source r a = true ↔ r = a)) ∧
    (∀ s, match_signal UR_ACL_SIG_ANY s = true) ∧
    (∀ s, match_signal UR_ACL_SIG_SYSTEM s = true ↔ 0x0001 ≤ s ∧ s ≤ 0x00FF) ∧
    (∀ s, match_signal UR_ACL_SIG_USER s = true ↔ 0x0100 ≤ s) ∧
    (∀ r s, r ≠ UR_ACL_SIG_ANY → r ≠ UR_ACL_SIG_SYSTEM →
      r ≠ UR_ACL_SIG_USER → (match_signal r s = true ↔ r = s)) := by
  refine ⟨?_, ?_, ?_, ?_, ?_, ?_, ?_, ?_, ?_⟩
  · intro st entId sig entry hinit hfind
    unfold ur_acl_check
    simp only [hinit, not_true_eq_false, if_false]
    rw [hfind]
    cases hm : find_matching_rule entry sig with
    | some rule => simp [hm]
    | none => simp [hm]
  · intro a
    simp [match_source, UR_ACL_SRC_ANY]
  · intro a
    simp only [match_source, UR_ACL_SRC_ANY, UR_ACL_SRC_LOCAL,
      UR_CFG_MAX_ENTITIES]
    norm_num
  · intro a
    simp only [match_source, UR_ACL_SRC_ANY, UR_ACL_SRC_LOCAL,
      UR_ACL_SRC_EXTERNAL, UR_CFG_MAX_ENTITIES]
    norm_num
  · intro r a h1 h2 h3
    simp only [match_source, h1, h2, h3, if_false, beq_iff_eq]
  · intro s
    simp [match_signal, UR_ACL_SIG_ANY]
  · intro s
    simp only [match_signal, UR_ACL_SIG_ANY, UR_ACL_SIG_SYSTEM]
    norm_num
  · intro s
    simp only [match_signal, UR_ACL_SIG_ANY, UR_ACL_SIG_SYSTEM, UR_ACL_SIG_USER]
    norm_num
  · intro r s h1 h2 h3
    simp only [match_signal, h1, h2, h3, if_false, beq_iff_eq]

/-- Witness for C6 (spec scenario 5): with the `c6_state` table, the
external FACTORY_RESET signal is checked against entity 4 and yields the
second rule's DENY action. -/
theorem C6_witness :
    c6_state.initialized = true ∧
    find_acl_entry c6_state 4 = some c6_entry ∧
    (ur_acl_check c6_state 4 c6_sig).1 =
      (match find_matching_rule c6_entry c6_sig with
       | some rule => rule.action
       | none =>
         if c6_entry.default_policy = AclDefault.default_allow then AclAction.allow
         else AclAction.deny) ∧
    (ur_acl_check c6_state 4 c6_sig).1 = AclAction.deny :=
  ⟨by decide, by decide,
   C6_acl_check_first_match_and_predicates.1 c6_state 4 c6_sig c6_entry
     (by decide) (by decide),
   by decide⟩

/--
C10: when `ur_acl_check` yields TRANSFORM for a signal but the target
entity has no transform callback registered, `ur_acl_filter` passes the
signal — it returns `true`, counts the signal as allowed
(`allowed_count` is incremented) — and leaves the signal unmodified,
rather than denying it.
-/
theorem C10_filter_transform_without_callback (tf : TransformEnv)
    (st : AclState) (entity_id : Nat) (sig : Signal) (entry : AclEntry)
    (hfind : find_acl_entry st entity_id = some entry)
    (htf : entry.transform_fn = none)
    (hcheck : (ur_acl_check st entity_id sig).1 = AclAction.transform) :
    ur_acl_filter tf st entity_id sig =
      (true, sig,
       { (ur_acl_check st entity_id sig).2 with stats :=
         { (ur_acl_check st entity_id sig).2.stats with allowed_count :=
             (ur_acl_check st entity_id sig).2.stats.allowed_count + 1 } }) := by
  have hfind1 : find_acl_entry (ur_acl_check st entity_id sig).2 entity_id =
      some entry := by
    unfold find_acl_entry at hfind ⊢
    rw [ur_acl_check_entries]
    exact hfind
  unfold ur_acl_filter
  dsimp only
  rw [hcheck]
  dsimp only
  rw [hfind1]
  dsimp only
  rw [htf]

/-- Witness for C10: in `c10_state` the catch-all TRANSFORM rule fires for
`c10_sig`, entity 5 has no transform callback, and the filter passes the
signal unmodified while counting it as allowed. -/
theorem C10_witness :
    find_acl_entry c10_state 5 = some c10_entry ∧
    c10_entry.transform_fn = none ∧
    (ur_acl_check c10_state 5 c10_sig).1 = AclAction.transform ∧
    ur_acl_filter tfEnvPass c10_state 5 c10_sig =
      (true, c10_sig,
       { (ur_acl_check c10_state 5 c10_sig).2 with stats :=
         { (ur_acl_check c10_state 5 c10_sig).2.stats with allowed_count :=
             (ur_acl_check c10_state 5 c10_sig).2.stats.allowed_count + 1 } }) :=
  ⟨by decide, by decide, by decide,
   C10_filter_transform_without_callback tfEnvPass c10_state 5 c10_sig c10_entry
     (by decide) (by decide) (by decide)⟩

/--
C7 counterexample: `ur_param_set_blob` performs no comparison against the
current value, so the sequence `set_blob(1, v); set_blob(1, v)` — with `v`
even equal to the value already stored — publishes a PARAM_CHANGED
notification twice, refuting "every typed set operation of the store
short-circuits on an equal value / at most one notification".
-/
theorem C7_counterexample_blob_set_notifies_twice :
    ¬ ((((ur_param_set_blob c7_blob_state 1 [0, 0, 0, 0] 4).2.1 ++
        (ur_param_set_blob (ur_param_set_blob c7_blob_state 1 [0, 0, 0, 0] 4).1
          1 [0, 0, 0, 0] 4).2.1).filter is_notify).length ≤ 1) := by
  decide

/--
C7 (amended): for the integer and boolean typed set operations
(`ur_param_set_u8` .. `ur_param_set_bool`, excluding the float setter,
whose IEEE comparison is outside this model) and for `ur_param_set_str`
(on parameters with a nonzero declared capacity), setting a value equal
to the current value short-circuits, so `set(id, v); set(id, v)` publishes
at most one PARAM_CHANGED notification.  `ur_param_set_blob` is the
exception: it never compares and notifies on every call (see the
counterexample).
-/
theorem C7_amended_scalar_and_string_set_idempotent :
    (∀ (st : ParamState) (ty : ParamType) (id : Nat) (v : Int),
      ty ≠ ParamType.f32 → ty ≠ ParamType.strT → ty ≠ ParamType.blobT →
      (((ur_param_set_num st ty id v).2.1 ++
        (ur_param_set_num (ur_param_set_num st ty id v).1 ty id v).2.1).filter
          is_notify).length ≤ 1) ∧
    (∀ (st : ParamState) (id : Nat) (v : List Nat),
      (∀ e ∈ st.entries, 1 ≤ e.pdef.size) →
      (((ur_param_set_str st id v).2.1 ++
        (ur_param_set_str (ur_param_set_str st id v).1 id v).2.1).filter
          is_notify).length ≤ 1) := by
  constructor
  · intro st ty id v _ _ _
    exact set_num_go_twice st.batch_mode st.storage ty id v st.entries
  · intro st id v _
    exact set_str_go_twice st.batch_mode st.storage id v st.entries

/-- Witness for C7 (amended): two identical u32 sets on `c7_u32_state`
and two identical string sets on `c7_str_state` each publish at most one
notification. -/
theorem C7_witness :
    (ParamType.u32 ≠ ParamType.f32 ∧ ParamType.u32 ≠ ParamType.strT ∧
      ParamType.u32 ≠ ParamType.blobT ∧
      (((ur_param_set_num c7_u32_state ParamType.u32 2 42).2.1 ++
        (ur_param_set_num (ur_param_set_num c7_u32_state ParamType.u32 2 42).1
          ParamType.u32 2 42).2.1).filter is_notify).length ≤ 1) ∧
    ((∀ e ∈ c7_str_state.entries, 1 ≤ e.pdef.size) ∧
      (((ur_param_set_str c7_str_state 3 [97, 98, 99]).2.1 ++
        (ur_param_set_str (ur_param_set_str c7_str_state 3 [97, 98, 99]).1
          3 [97, 98, 99]).2.1).filter is_notify).length ≤ 1) :=
  ⟨⟨by decide, by decide, by decide,
    C7_amended_scalar_and_string_set_idempotent.1 c7_u32_state ParamType.u32 2 42
      (by decide) (by decide) (by decide)⟩,
   ⟨by decide,
    C7_amended_scalar_and_string_set_idempotent.2 c7_str_state 3 [97, 98, 99]
      (by decide)⟩⟩

/--
C8: when the middleware chain reports HANDLED or FILTERED during
dispatch, dispatch terminates immediately with `UR_OK`: the only change
to the entity is the dequeued signal — no rule lookup result is acted on,
no rule action is invoked (the event list is empty), and the current
state and flow coroutine state are untouched.  CONTINUE and TRANSFORM
results proceed: the chain steps to the next middleware with the
(possibly mutated) signal, and dispatch then proceeds to rule matching on
the chain's output signal.
-/
theorem C8_middleware_handled_filtered_terminate_dispatch
    (env : ActionEnv) (menv : MwEnv)
    (ent : Entity) (sig : Signal) (rest : List Signal)
    (hact : ent.active = true) (hsus : ent.suspended = false)
    (hinbox : ent.inbox = sig :: rest)
    (hmw : (run_middleware_chain menv { ent with inbox := rest }
        ent.middleware sig).1 = MwResult.mwHandled ∨
      (run_middleware_chain menv { ent with inbox := rest }
        ent.middleware sig).1 = MwResult.mwFiltered) :
    ur_dispatch env menv ent = ({ ent with inbox := rest }, [], UrErr.ok) ∧
    (ur_dispatch env menv ent).1.current_state = ent.current_state ∧
    (ur_dispatch env menv ent).1.flow_line = ent.flow_line ∧
    (ur_dispatch env menv ent).1.flow_wait_sig = ent.flow_wait_sig ∧
    (ur_dispatch env menv ent).1.flow_wait_until = ent.flow_wait_until ∧
    (ur_dispatch env menv ent).1.flow_running = ent.flow_running ∧
    (∀ (e : Entity) (mw : Middleware) (mws : List Middleware) (s : Signal),
      mw.enabled = true →
      ((menv mw.fn e s).1 = MwResult.mwContinue ∨
        (menv mw.fn e s).1 = MwResult.mwTransform) →
      run_middleware_chain menv e (mw :: mws) s =
        run_middleware_chain menv e mws (menv mw.fn e s).2) ∧
    (∀ (e : Entity) (s : Signal),
      ((run_middleware_chain menv e e.middleware s).1 = MwResult.mwContinue ∨
        (run_middleware_chain menv e e.middleware s).1 = MwResult.mwTransform) →
      dispatch_signal env menv e s =
        dispatch_rules env e (run_middleware_chain menv e e.middleware s).2) := by
  have hmain : ur_dispatch env menv ent = ({ ent with inbox := rest }, [], UrErr.ok) := by
    unfold ur_dispatch
    rw [if_neg (by simp [hact, hsus]), hinbox]
    unfold dispatch_signal
    dsimp only
    rcases hmw with h | h <;> rw [h] <;> simp
  refine ⟨hmain, by rw [hmain], by rw [hmain], by rw [hmain], by rw [hmain],
    by rw [hmain], ?_, ?_⟩
  · intro e mw mws s hen h
    rcases h with h | h <;> simp [run_middleware_chain, hen, h]
  · intro e s h
    unfold dispatch_signal
    dsimp only
    rcases h with h | h <;> rw [h] <;> simp

/-- Witness for C8: with every middleware reporting HANDLED, dispatching
`c8_sig` to `c8_entity` (whose state has a matching rule with an action)
consumes the signal and does nothing else. -/
theorem C8_witness :
    c8_entity.active = true ∧ c8_entity.suspended = false ∧
    c8_entity.inbox = [c8_sig] ∧
    (run_middleware_chain mwEnvHandled { c8_entity with inbox := [] }
      c8_entity.middleware c8_sig).1 = MwResult.mwHandled ∧
    ur_dispatch actEnvZero mwEnvHandled c8_entity =
      ({ c8_entity with inbox := [] }, [], UrErr.ok) :=
  ⟨by decide, by decide, by decide, by decide,
   (C8_middleware_handled_filtered_terminate_dispatch actEnvZero mwEnvHandled
     c8_entity c8_sig [] (by decide) (by decide) (by decide)
     (Or.inl (by decide))).1⟩

/--
C3: the dispatch transition protocol.  When a rule with a non-null action
matches (after the middleware chain passed the signal through), the
action runs exactly once with the entity and the (possibly transformed)
signal — the single `invoke` event heading the event list; the action's
return value 0 means "stay" and any nonzero return overrides the rule's
declared next state (the defining equation of `next`); and exactly when
the resulting next state is nonzero and differs from the current state,
the entity runs the old state's on-exit with a synthesized EXIT signal,
resets the flow coroutine state, swaps the current state id, then runs
the new state's on-entry with a synthesized ENTRY signal, in that order —
otherwise the entity is unchanged apart from the dequeued signal.
-/
theorem C3_dispatch_action_and_transition_protocol
    (env : ActionEnv) (menv : MwEnv)
    (ent : Entity) (sig sig2 : Signal) (rest : List Signal)
    (mres : MwResult) (rule : Rule) (aid : Nat) (next : Nat)
    (hact : ent.active = true) (hsus : ent.suspended = false)
    (hinbox : ent.inbox = sig :: rest)
    (hmw : run_middleware_chain menv { ent with inbox := rest }
        ent.middleware sig = (mres, sig2))
    (hmres : mres = MwResult.mwContinue ∨ mres = MwResult.mwTransform)
    (hlook : cascading_lookup { ent with inbox := rest } sig2.id = some rule)
    (haction : rule.action = some aid)
    (hnext : next = (if env aid { ent with inbox := rest } sig2 ≠ 0 then
        env aid { ent with inbox := rest } sig2 else rule.next_state))
    (hcs : ent.current_state ≠ 0) :
    ((next = 0 ∨ next = ent.current_state) →
      ur_dispatch env menv ent =
        ({ ent with inbox := rest }, [Event.invoke aid sig2], UrErr.ok)) ∧
    (∀ (old sd : StateDef), next ≠ 0 → next ≠ ent.current_state →
      find_state ent ent.current_state = some old →
      find_state ent next = some sd →
      ur_dispatch env menv ent =
        ({ ent with inbox := rest, current_state := next, flow_line := 0,
                    flow_wait_sig := SIG_NONE, flow_wait_until := 0,
                    flow_running := false },
         Event.invoke aid sig2 ::
           (optInvoke old.on_exit (ur_signal_create SIG_SYS_EXIT ent.id) ++
            optInvoke sd.on_entry (ur_signal_create SIG_SYS_ENTRY ent.id)),
         UrErr.ok)) := by
  have hcore : ur_dispatch env menv ent =
      dispatch_rules env { ent with inbox := rest } sig2 := by
    unfold ur_dispatch
    rw [if_neg (by simp [hact, hsus]), hinbox]
    unfold dispatch_signal
    dsimp only
    rw [hmw]
    rcases hmres with h | h <;> rw [h] <;> simp
  rw [hcore]
  unfold dispatch_rules
  rw [hlook]
  dsimp only
  rw [haction]
  dsimp only
  rw [← hnext]
  constructor
  · intro hstay
    rw [if_neg]
    rcases hstay with h | h
    · simp [h]
    · simp [h]
  · intro old sd hne0 hnecs hold hsd
    rw [if_pos ⟨hne0, hnecs⟩]
    unfold ur_set_state
    rw [show find_state { ent with inbox := rest } next = some sd from hsd]
    dsimp only
    rw [show find_state { ent with inbox := rest } ent.current_state = some old
      from hold]
    simp [hcs]

/-- Witness for C3 (spec scenario 1): dispatching BUTTON_PRESS in IDLE
runs act_start (id 50) once, and — the rule's next state 2 being nonzero
and different from 1 — runs IDLE's on-exit, resets the flow state, swaps
to BLINKING and runs its on-entry, in that order. -/
theorem C3_witness :
    c3_entity.inbox = [c3_sig] ∧
    run_middleware_chain mwEnvPass { c3_entity with inbox := [] }
      c3_entity.middleware c3_sig = (MwResult.mwContinue, c3_sig) ∧
    cascading_lookup { c3_entity with inbox := [] } c3_sig.id =
      some { signal_id := 0x0101, next_state := 2, action := some 50 } ∧
    ur_dispatch actEnvZero mwEnvPass c3_entity =
      ({ c3_entity with inbox := [], current_state := 2, flow_line := 0,
                        flow_wait_sig := SIG_NONE, flow_wait_until := 0,
                        flow_running := false },
       Event.invoke 50 c3_sig ::
         (optInvoke c3_idle.on_exit (ur_signal_create SIG_SYS_EXIT 1) ++
          optInvoke c3_blinking.on_entry (ur_signal_create SIG_SYS_ENTRY 1)),
       UrErr.ok) :=
  ⟨by decide, by decide, by decide,
   (C3_dispatch_action_and_transition_protocol actEnvZero mwEnvPass c3_entity
     c3_sig c3_sig [] MwResult.mwContinue
     { signal_id := 0x0101, next_state := 2, action := some 50 } 50 2
     (by decide) (by decide) (by decide) (by decide) (Or.inl rfl)
     (by decide) (by decide) (by decide) (by decide)).2
     c3_idle c3_blinking (by decide) (by decide) (by decide) (by decide)⟩

/-- Helper: the CRC state stays below 2^16 (every step is masked). -/
theorem ur_crc16_lt (l : List Nat) : ur_crc16 l < 65536 := by
  have h : ∀ (l : List Nat) (init : Nat), init < 65536 →
      l.foldl (fun crc b =>
        ((crc <<< 8) ^^^ crc16_table.getD (((crc >>> 8) ^^^ b) &&& 0xFF) 0) &&& 0xFFFF)
        init < 65536 := by
    intro l
    induction l with
    | nil => intro init h; simpa using h
    | cons b rest ih =>
      intro init _
      simp only [List.foldl_cons]
      exact ih _ (Nat.lt_of_le_of_lt Nat.and_le_right (by norm_num))
  exact h l 0xFFFF (by norm_num)

set_option maxRecDepth 8000 in
/-- Helper: the literal lookup table in `ur_codec.c` is exactly the
CRC-16/CCITT table generated from polynomial 0x1021. -/
theorem crc16_table_correct :
    crc16_table = (List.range 256).map crc16_ccitt_entry := by
  decide

/-- Helper: splitting a CRC value into its two little-endian bytes and
reassembling them is the identity. -/
theorem ur_crc16_recompose (l : List Nat) :
    ur_crc16 l % 256 + ur_crc16 l / 256 % 256 * 256 = ur_crc16 l := by
  have := ur_crc16_lt l
  omega

/-- Helper: the encoded frame, written out byte by byte. -/
theorem ur_codec_encode_binary_layout (sig : Signal) (w bufsz : Nat)
    (uninit : List Nat)
    (hw : w ≤ UR_CFG_SIGNAL_PAYLOAD_SIZE)
    (hbuf : UR_CODEC_HEADER_SIZE + w + UR_CODEC_CRC_SIZE ≤ bufsz) :
    ur_codec_encode_binary sig w bufsz uninit =
      some ([UR_CODEC_SYNC_BYTE, w % 256, w / 256 % 256,
             sig.id % 256, sig.id / 256 % 256,
             sig.src_id % 256, sig.src_id / 256 % 256] ++
            sig.payload.take w ++
            [ur_crc16 ([w % 256, w / 256 % 256,
                        sig.id % 256, sig.id / 256 % 256,
                        sig.src_id % 256, sig.src_id / 256 % 256] ++
                       sig.payload.take w) % 256,
             ur_crc16 ([w % 256, w / 256 % 256,
                        sig.id % 256, sig.id / 256 % 256,
                        sig.src_id % 256, sig.src_id / 256 % 256] ++
                       sig.payload.take w) / 256 % 256]) := by
  unfold ur_codec_encode_binary
  rw [if_neg (by omega)]
  have hmin : min w UR_CFG_SIGNAL_PAYLOAD_SIZE = w := Nat.min_eq_left hw
  rw [hmin]
  simp

/-- Helper: decoding an encoded frame recovers the signal (full record
equality). -/
theorem ur_codec_decode_encode (sig : Signal) (w bufsz : Nat)
    (uninit : List Nat)
    (hw : w ≤ UR_CFG_SIGNAL_PAYLOAD_SIZE)
    (hlen : sig.payload.length = UR_CFG_SIGNAL_PAYLOAD_SIZE)
    (hid : sig.id < 65536) (hsrc : sig.src_id < 65536)
    (hbuf : UR_CODEC_HEADER_SIZE + w + UR_CODEC_CRC_SIZE ≤ bufsz) :
    ur_codec_decode_binary ((ur_codec_encode_binary sig w bufsz uninit).getD []) =
      ({ signal := { id := sig.id, src_id := sig.src_id,
                     payload := sig.payload.take w ++
                       List.replicate (UR_CFG_SIGNAL_PAYLOAD_SIZE - w) 0,
                     timestamp := 0 },
         consumed := UR_CODEC_HEADER_SIZE + w + UR_CODEC_CRC_SIZE,
         complete := true }, UrErr.ok) := by
  obtain ⟨a, b, c, d, hp⟩ : ∃ a b c d, sig.payload = [a, b, c, d] := by
    have h := hlen
    rcases hx : sig.payload with _ | ⟨a, _ | ⟨b, _ | ⟨c, _ | ⟨d, _ | e⟩⟩⟩⟩ <;>
      rw [hx] at h <;> simp [UR_CFG_SIGNAL_PAYLOAD_SIZE] at h
    exact ⟨a, b, c, d, rfl⟩
  rw [ur_codec_encode_binary_layout sig w bufsz uninit hw hbuf]
  have hidr : sig.id % 256 + sig.id / 256 % 256 * 256 = sig.id := by omega
  have hsrcr : sig.src_id % 256 + sig.src_id / 256 % 256 * 256 = sig.src_id := by omega
  rw [show UR_CFG_SIGNAL_PAYLOAD_SIZE = 4 from rfl] at hw
  interval_cases w <;>
    simp [ur_codec_decode_binary, find_sync, zero_decode_result,
      UR_CODEC_SYNC_BYTE, UR_CODEC_HEADER_SIZE, UR_CODEC_CRC_SIZE,
      UR_CFG_SIGNAL_PAYLOAD_SIZE, hp, hidr, hsrcr, ur_crc16_recompose]

/--
C4: the binary codec round-trip and frame format.  (1) For every signal
and payload width `w` within the signal payload capacity, the encoded
frame has the little-endian layout `sync=0x55 | len:2 | sig_id:2 |
src_id:2 | payload:len | crc16:2`, the CRC covering all bytes after the
sync byte through the end of the payload.  (2) The CRC the code computes
from its literal table is CRC-16/CCITT: polynomial 0x1021, initial value
0xFFFF (the table generated bitwise from the polynomial).  (3) Decoding
an encoded frame succeeds and yields a signal equal to the original in
id, src_id, and the first `w` payload bytes.
-/
theorem C4_codec_binary_layout_crc_and_roundtrip :
    (∀ (sig : Signal) (w bufsz : Nat) (uninit : List Nat),
      w ≤ UR_CFG_SIGNAL_PAYLOAD_SIZE →
      UR_CODEC_HEADER_SIZE + w + UR_CODEC_CRC_SIZE ≤ bufsz →
      ur_codec_encode_binary sig w bufsz uninit =
        some ([UR_CODEC_SYNC_BYTE, w % 256, w / 256 % 256,
               sig.id % 256, sig.id / 256 % 256,
               sig.src_id % 256, sig.src_id / 256 % 256] ++
              sig.payload.take w ++
              [ur_crc16 ([w % 256, w / 256 % 256,
                          sig.id % 256, sig.id / 256 % 256,
                          sig.src_id % 256, sig.src_id / 256 % 256] ++
                         sig.payload.take w) % 256,
               ur_crc16 ([w % 256, w / 256 % 256,
                          sig.id % 256, sig.id / 256 % 256,
                          sig.src_id % 256, sig.src_id / 256 % 256] ++
                         sig.payload.take w) / 256 % 256])) ∧
    (∀ l, ur_crc16 l = crc16_ccitt l) ∧
    (∀ (sig : Signal) (w bufsz : Nat) (uninit : List Nat),
      w ≤ UR_CFG_SIGNAL_PAYLOAD_SIZE →
      sig.payload.length = UR_CFG_SIGNAL_PAYLOAD_SIZE →
      sig.id < 65536 → sig.src_id < 65536 →
      UR_CODEC_HEADER_SIZE + w + UR_CODEC_CRC_SIZE ≤ bufsz →
      (ur_codec_decode_binary
          ((ur_codec_encode_binary sig w bufsz uninit).getD [])).2 = UrErr.ok ∧
      (ur_codec_decode_binary
          ((ur_codec_encode_binary sig w bufsz uninit).getD [])).1.complete = true ∧
      (ur_codec_decode_binary
          ((ur_codec_encode_binary sig w bufsz uninit).getD [])).1.signal.id = sig.id ∧
      (ur_codec_decode_binary
          ((ur_codec_encode_binary sig w bufsz uninit).getD [])).1.signal.src_id =
        sig.src_id ∧
      (ur_codec_decode_binary
          ((ur_codec_encode_binary sig w bufsz uninit).getD
            [])).1.signal.payload.take w = sig.payload.take w) := by
  refine ⟨ur_codec_encode_binary_layout, ?_, ?_⟩
  · intro l
    unfold ur_crc16 crc16_ccitt
    rw [crc16_table_correct]
  · intro sig w bufsz uninit hw hlen hid hsrc hbuf
    rw [ur_codec_decode_encode sig w bufsz uninit hw hlen hid hsrc hbuf]
    refine ⟨rfl, rfl, rfl, rfl, ?_⟩
    have hlw : w ≤ (sig.payload.take w).length := by
      rw [List.length_take, hlen]
      exact Nat.le_min.2 ⟨Nat.le_refl w, hw⟩
    rw [List.take_append_of_le_length hlw, List.take_take, Nat.min_self]

/-- Witness for C4 (spec scenario 4): the signal
`{id=0x0120, src=7, payload=DEADBEEF}` encodes to the 13-byte frame
`55 04 00 20 01 07 00 EF BE AD DE 2F B3` and decodes back to the same
id, src and payload bytes. -/
theorem C4_witness :
    ur_codec_encode_binary c4_sig 4 32 [] =
      some [0x55, 0x04, 0x00, 0x20, 0x01, 0x07, 0x00,
            0xEF, 0xBE, 0xAD, 0xDE, 0x2F, 0xB3] ∧
    ((ur_codec_decode_binary
        ((ur_codec_encode_binary c4_sig 4 32 []).getD [])).2 = UrErr.ok ∧
      (ur_codec_decode_binary
        ((ur_codec_encode_binary c4_sig 4 32 []).getD [])).1.complete = true ∧
      (ur_codec_decode_binary
        ((ur_codec_encode_binary c4_sig 4 32 []).getD [])).1.signal.id = c4_sig.id ∧
      (ur_codec_decode_binary
        ((ur_codec_encode_binary c4_sig 4 32 []).getD [])).1.signal.src_id =
        c4_sig.src_id ∧
      (ur_codec_decode_binary
        ((ur_codec_encode_binary c4_sig 4 32 []).getD [])).1.signal.payload.take 4 =
        c4_sig.payload.take 4) :=
  ⟨by decide,
   C4_codec_binary_layout_crc_and_roundtrip.2.2 c4_sig 4 32 []
     (by decide) (by decide) (by decide) (by decide) (by decide)⟩

/-- Helper: a successful registry lookup implies the id is in range. -/
theorem ur_get_entity_valid {reg : Registry} {s : Nat} {e : Entity}
    (h : ur_get_entity reg s = some e) : 1 ≤ s ∧ s ≤ UR_CFG_MAX_ENTITIES := by
  unfold ur_get_entity at h
  by_cases hc : s = 0 ∨ s > UR_CFG_MAX_ENTITIES
  · rw [if_pos hc] at h
    exact absurd h (by simp)
  · push_neg at hc
    omega

/-- Helper: writing one registry slot leaves every other id's lookup
unchanged. -/
theorem ur_get_entity_set_ne (reg : Registry) (x : Entity) {s : Nat} (i : Nat)
    (hs : 1 ≤ s) (hne : i ≠ s) :
    ur_get_entity (registry_set reg (s - 1) x) i = ur_get_entity reg i := by
  unfold ur_get_entity registry_set
  by_cases hc : i = 0 ∨ i > UR_CFG_MAX_ENTITIES
  · rw [if_pos hc, if_pos hc]
  · rw [if_neg hc, if_neg hc]
    push_neg at hc
    rw [if_neg (by omega)]

/-- Helper: writing a registry slot makes that id's lookup return the
written entity. -/
theorem ur_get_entity_set_self (reg : Registry) (x : Entity) {s : Nat}
    (hs1 : 1 ≤ s) (hs2 : s ≤ UR_CFG_MAX_ENTITIES) :
    ur_get_entity (registry_set reg (s - 1) x) s = some x := by
  unfold ur_get_entity registry_set
  rw [if_neg (by omega), if_pos rfl]

/-- Helper: `ur_emit` into an inbox with a free slot appends the stamped
signal and succeeds. -/
theorem ur_emit_free {now : Nat} {e : Entity} {sig : Signal}
    (h : e.inbox.length < UR_CFG_INBOX_SIZE) :
    ur_emit now e sig =
      ({ e with inbox := e.inbox ++ [emit_stamped now sig] }, UrErr.ok) := by
  unfold ur_emit emit_stamped
  dsimp only
  rw [if_neg (by omega)]

/-- Helper: `ur_emit` into a full inbox drops the signal and reports
`queue_full`, leaving the entity untouched. -/
theorem ur_emit_full {now : Nat} {e : Entity} {sig : Signal}
    (h : ¬ e.inbox.length < UR_CFG_INBOX_SIZE) :
    ur_emit now e sig = (e, UrErr.queue_full) := by
  unfold ur_emit
  dsimp only
  rw [if_pos (by omega)]

/-- Helper: full characterization of the `ur_publish` fan-out loop over a
duplicate-free, fully resolvable subscriber list: the delivered count and
statistics deltas are the free/full split of the list, untouched slots
keep their lookups, and every subscriber's inbox either gains the stamped
signal (free slot) or is unchanged (full). -/
theorem publish_fold_spec (now : Nat) (sig : Signal) (subs : List Nat)
    (reg : Registry) (stats : BusStats) (delivered : Nat)
    (hnd : subs.Nodup)
    (hres : ∀ i ∈ subs, (ur_get_entity reg i).isSome) :
    (publish_fold now sig subs reg stats delivered).2.2 =
      delivered + (subs.filter (fun i => ent_has_free_slot reg i)).length ∧
    (publish_fold now sig subs reg stats delivered).2.1.delivery_count =
      stats.delivery_count + (subs.filter (fun i => ent_has_free_slot reg i)).length ∧
    (publish_fold now sig subs reg stats delivered).2.1.drop_count =
      stats.drop_count + (subs.filter (fun i => ¬ ent_has_free_slot reg i)).length ∧
    (∀ j, j ∉ subs →
      ur_get_entity (publish_fold now sig subs reg stats delivered).1 j =
        ur_get_entity reg j) ∧
    (∀ i ∈ subs, ∀ e, ur_get_entity reg i = some e →
      ur_get_entity (publish_fold now sig subs reg stats delivered).1 i =
        some (if e.inbox.length < UR_CFG_INBOX_SIZE
              then { e with inbox := e.inbox ++ [emit_stamped now sig] }
              else e)) := by
  induction subs generalizing reg stats delivered with
  | nil => simp [publish_fold]
  | cons s rest ih =>
    have hs : (ur_get_entity reg s).isSome := hres s (List.mem_cons_self s rest)
    obtain ⟨e, he⟩ := Option.isSome_iff_exists.mp hs
    obtain ⟨hs1, hs2⟩ := ur_get_entity_valid he
    have hsrest : s ∉ rest := (List.nodup_cons.mp hnd).1
    have hndr : rest.Nodup := (List.nodup_cons.mp hnd).2
    unfold publish_fold
    rw [he]
    dsimp only
    by_cases hfree : e.inbox.length < UR_CFG_INBOX_SIZE
    · rw [ur_emit_free hfree]
      dsimp only
      rw [if_pos rfl]
      have hgetne : ∀ i ∈ rest,
          ur_get_entity (registry_set reg (s - 1)
            { e with inbox := e.inbox ++ [emit_stamped now sig] }) i =
          ur_get_entity reg i := by
        intro i hi
        exact ur_get_entity_set_ne reg _ i hs1 (fun h => hsrest (h ▸ hi))
      have hres2 : ∀ i ∈ rest,
          (ur_get_entity (registry_set reg (s - 1)
            { e with inbox := e.inbox ++ [emit_stamped now sig] }) i).isSome := by
        intro i hi
        rw [hgetne i hi]
        exact hres i (List.mem_cons_of_mem s hi)
      obtain ⟨ihn, ihdel, ihdrop, ihframe, ihelem⟩ :=
        ih (registry_set reg (s - 1)
          { e with inbox := e.inbox ++ [emit_stamped now sig] })
          { stats with delivery_count := stats.delivery_count + 1 }
          (delivered + 1) hndr hres2
      have hfilter : rest.filter (fun i => ent_has_free_slot (registry_set reg (s - 1)
            { e with inbox := e.inbox ++ [emit_stamped now sig] }) i) =
          rest.filter (fun i => ent_has_free_slot reg i) := by
        apply List.filter_congr
        intro i hi
        simp only [ent_has_free_slot, hgetne i hi]
      have hfilter2 : rest.filter (fun i => ¬ ent_has_free_slot (registry_set reg (s - 1)
            { e with inbox := e.inbox ++ [emit_stamped now sig] }) i) =
          rest.filter (fun i => ¬ ent_has_free_slot reg i) := by
        apply List.filter_congr
        intro i hi
        simp only [ent_has_free_slot, hgetne i hi]
      have hsfree : ent_has_free_slot reg s = true := by
        simp [ent_has_free_slot, he, hfree]
      refine ⟨?_, ?_, ?_, ?_, ?_⟩
      · rw [ihn, hfilter]
        simp [List.filter_cons, hsfree]
        omega
      · rw [ihdel, hfilter]
        simp [List.filter_cons, hsfree]
        omega
      · rw [ihdrop, hfilter2]
        simp [List.filter_cons, hsfree]
      · intro j hj
        rw [ihframe j (fun h => hj (List.mem_cons_of_mem s h))]
        exact ur_get_entity_set_ne reg _ j hs1
          (fun h => hj (h ▸ List.mem_cons_self s rest))
      · intro i hi f hf
        rcases List.mem_cons.mp hi with hieq | hirest
        · subst hieq
          rw [ihframe i hsrest, ur_get_entity_set_self reg _ hs1 hs2]
          rw [he] at hf
          cases hf
          rw [if_pos hfree]
        · have hf2 : ur_get_entity (registry_set reg (s - 1)
              { e with inbox := e.inbox ++ [emit_stamped now sig] }) i = some f := by
            rw [hgetne i hirest]
            exact hf
          exact ihelem i hirest f hf2
    · rw [ur_emit_full hfree]
      dsimp only
      rw [if_neg (by decide)]
      obtain ⟨ihn, ihdel, ihdrop, ihframe, ihelem⟩ :=
        ih reg { stats with drop_count := stats.drop_count + 1 } delivered hndr
          (fun i hi => hres i (List.mem_cons_of_mem s hi))
      have hsfull : ent_has_free_slot reg s = false := by
        simp [ent_has_free_slot, he, hfree]
      refine ⟨?_, ?_, ?_, ?_, ?_⟩
      · rw [ihn]
        simp [List.filter_cons, hsfull]
      · rw [ihdel]
        simp [List.filter_cons, hsfull]
      · rw [ihdrop]
        simp [List.filter_cons, hsfull]
        omega
      · intro j hj
        exact ihframe j (fun h => hj (List.mem_cons_of_mem s h))
      · intro i hi f hf
        rcases List.mem_cons.mp hi with hieq | hirest
        · subst hieq
          rw [ihframe i hsrest, hf]
          rw [he] at hf
          cases hf
          rw [if_neg hfree]
        · exact ihelem i hirest f hf

/--
C5: pub/sub fan-out.  For a topic whose (duplicate-free) subscriber list
all resolves through the registry: `ur_publish` returns exactly the
number of subscribers whose inboxes had a free slot — so with all `k`
inboxes free it returns exactly `k`; each free-slot subscriber's inbox
grows by exactly the published signal (count +1) while a full-inbox
subscriber's entity is unchanged and the drop counter counts exactly the
full inboxes, the fan-out continuing over the rest of the subscriber
list; and the delivered copy carries the publish call's own signal
unchanged in id, source id (no rewriting) and payload (only a zero
timestamp is stamped with the clock, as in `ur_emit`).
-/
theorem C5_publish_fanout_counts_and_inboxes (now : Nat) (reg : Registry)
    (bus : BusState) (sig : Signal) (topic : BusTopic)
    (htopic : find_topic bus sig.id = some topic)
    (hnd : topic.subscribers.Nodup)
    (hres : ∀ i ∈ topic.subscribers, (ur_get_entity reg i).isSome) :
    (ur_publish now reg bus sig).2.2 =
      (topic.subscribers.filter (fun i => ent_has_free_slot reg i)).length ∧
    (∀ i ∈ topic.subscribers, ∀ e, ur_get_entity reg i = some e →
      ur_get_entity (ur_publish now reg bus sig).1 i =
        some (if e.inbox.length < UR_CFG_INBOX_SIZE
              then { e with inbox := e.inbox ++ [emit_stamped now sig] }
              else e)) ∧
    (ur_publish now reg bus sig).2.1.stats.drop_count =
      bus.stats.drop_count +
        (topic.subscribers.filter (fun i => ¬ ent_has_free_slot reg i)).length ∧
    (emit_stamped now sig).id = sig.id ∧
    (emit_stamped now sig).src_id = sig.src_id ∧
    (emit_stamped now sig).payload = sig.payload := by
  have hstamp : (emit_stamped now sig).id = sig.id ∧
      (emit_stamped now sig).src_id = sig.src_id ∧
      (emit_stamped now sig).payload = sig.payload := by
    unfold emit_stamped
    split <;> exact ⟨rfl, rfl, rfl⟩
  unfold ur_publish
  rw [htopic]
  dsimp only
  by_cases hempty : topic.subscribers.length = 0
  · have hnil : topic.subscribers = [] := List.length_eq_zero.mp hempty
    rw [if_pos hempty]
    dsimp only
    refine ⟨?_, ?_, ?_, hstamp.1, hstamp.2.1, hstamp.2.2⟩
    · rw [hnil]
      rfl
    · intro i hi
      rw [hnil] at hi
      exact absurd hi (List.not_mem_nil i)
    · rw [hnil]
      rfl
  · rw [if_neg hempty]
    dsimp only
    obtain ⟨h1, h2, h3, hframe, helem⟩ := publish_fold_spec now sig
      topic.subscribers reg
      { bus.stats with publish_count := bus.stats.publish_count + 1 } 0 hnd hres
    exact ⟨by rw [h1]; omega, helem, by rw [h3], hstamp.1, hstamp.2.1, hstamp.2.2⟩

/-- Witness for C5 (spec scenario 3): publishing BATTERY_LEVEL with two
free-inbox subscribers returns 2 and appends the signal (with payload
byte 42 and src 3 intact) to each subscriber's inbox. -/
theorem C5_witness :
    find_topic c5_bus c5_sig.id =
      some { topic_id := 0x0200, subscribers := [1, 2] } ∧
    ([1, 2] : List Nat).Nodup ∧
    (∀ i ∈ ([1, 2] : List Nat), (ur_get_entity c5_registry i).isSome) ∧
    (ur_publish 100 c5_registry c5_bus c5_sig).2.2 = 2 ∧
    ur_get_entity (ur_publish 100 c5_registry c5_bus c5_sig).1 1 =
      some { c5_entA with inbox := [emit_stamped 100 c5_sig] } ∧
    ur_get_entity (ur_publish 100 c5_registry c5_bus c5_sig).1 2 =
      some { c5_entB with inbox := [emit_stamped 100 c5_sig] } :=
  ⟨by decide, by decide, by decide,
   Eq.trans
     ((C5_publish_fanout_counts_and_inboxes 100 c5_registry c5_bus c5_sig
       { topic_id := 0x0200, subscribers := [1, 2] }
       (by decide) (by decide) (by decide)).1)
     (by decide),
   Eq.trans
     ((C5_publish_fanout_counts_and_inboxes 100 c5_registry c5_bus c5_sig
       { topic_id := 0x0200, subscribers := [1, 2] }
       (by decide) (by decide) (by decide)).2.1 1 (by decide) c5_entA (by decide))
     (by decide),
   Eq.trans
     ((C5_publish_fanout_counts_and_inboxes 100 c5_registry c5_bus c5_sig
       { topic_id := 0x0200, subscribers := [1, 2] }
       (by decide) (by decide) (by decide)).2.1 2 (by decide) c5_entB (by decide))
     (by decide)⟩

end MicroReactor
